import Mathlib

/-!
Verification of the MCP Toolbox for Google Workspace tool-contract layer.

The definitions below are a shallow embedding of the validation, error
mapping and request-shaping logic of the Gmail and Google Calendar tool
servers (src/mcp_server/gmail and src/mcp_server/google_calendar).
Python regular expressions are embedded as explicit regex syntax trees
matched by a Brzozowski-derivative engine; `re.match` against a pattern
anchored with `^ ... $` is embedded including the CPython semantics of
`$`, which also matches just before a single newline at the end of the
string.  Provider (Google API) calls are embedded by passing the
provider responses as explicit arguments and recording the sequence of
issued calls in the result, so that theorems can speak about which
remote calls an operation performed.
-/

namespace McpToolbox

/-- Regular-expression syntax trees used to embed the Python `re`
patterns of the repository.  Character classes are lists of inclusive
character ranges. -/
inductive Re where
  | emp : Re
  | eps : Re
  | cls : List (Char × Char) → Re
  | cat : Re → Re → Re
  | alt : Re → Re → Re
  | star : Re → Re
deriving DecidableEq

/-- A range standing for a single character. -/
def rchar (c : Char) : Char × Char := (c, c)

/-- A range given by code points (for the `\xNN-\xNN` ranges of the
source patterns). -/
def rhex (a b : Nat) : Char × Char := (Char.ofNat a, Char.ofNat b)

/-- One-character regex. -/
def lit (c : Char) : Re := .cls [rchar c]

/-- Kleene plus: `r+`. -/
def rplus (r : Re) : Re := .cat r (.star r)

/-- Optional: `r?`. -/
def ropt (r : Re) : Re := .alt .eps r

/-- Concatenation of a list of regexes. -/
def rseq (l : List Re) : Re := l.foldr .cat .eps

/-- Bounded repetition `r{n}`: exactly `n` copies of `r`. -/
def rrep (r : Re) : Nat → Re
  | 0 => .eps
  | n + 1 => .cat r (rrep r n)

/-- Raw membership of a character in a class. -/
def inRanges (rs : List (Char × Char)) (c : Char) : Bool :=
  rs.any fun p => decide (p.1 ≤ c) && decide (c ≤ p.2)

/-- Class membership under `re.IGNORECASE`: a character matches when it
or one of its case variants lies in the class.  Both email patterns of
the repository are compiled with `re.IGNORECASE`. -/
def clsMatches (rs : List (Char × Char)) (c : Char) : Bool :=
  inRanges rs c || inRanges rs c.toLower || inRanges rs c.toUpper

/-- Whether a regex accepts the empty string. -/
def Re.nullable : Re → Bool
  | .emp => false
  | .eps => true
  | .cls _ => false
  | .cat a b => a.nullable && b.nullable
  | .alt a b => a.nullable || b.nullable
  | .star _ => true

/-- Alternation with unit simplification (keeps derivatives small). -/
def mkAlt : Re → Re → Re
  | .emp, b => b
  | a, .emp => a
  | a, b => .alt a b

/-- Concatenation with unit simplification (keeps derivatives small). -/
def mkCat : Re → Re → Re
  | .emp, _ => .emp
  | .eps, b => b
  | a, b => if a = .emp || b = .emp then .emp else if b = .eps then a else .cat a b

/-- Brzozowski derivative of a regex by a character. -/
def Re.deriv : Re → Char → Re
  | .emp, _ => .emp
  | .eps, _ => .emp
  | .cls rs, c => if clsMatches rs c then .eps else .emp
  | .cat a b, c =>
      if a.nullable then mkAlt (mkCat (a.deriv c) b) (b.deriv c)
      else mkCat (a.deriv c) b
  | .alt a b, c => mkAlt (a.deriv c) (b.deriv c)
  | .star r, c => mkCat (r.deriv c) (.star r)

/-- Whole-string matching by iterated derivatives. -/
def Re.matchList (r : Re) (l : List Char) : Bool :=
  (l.foldl Re.deriv r).nullable

/-- Embedding of CPython `re.match` against a pattern of the form
`^ body $`: the pattern must cover the whole string, except that `$`
also matches just before a single newline at the very end of the
string. -/
def pyFullMatch (r : Re) (s : String) : Bool :=
  r.matchList s.data ||
    (decide (s.data.getLast? = some (Char.ofNat 10)) &&
      r.matchList s.data.dropLast)

end McpToolbox

namespace McpToolbox.Gmail

/-- Transcription of the `EMAIL_REGEX` pattern local to
`is_valid_email` in `src/mcp_server/gmail/utils.py` (an RFC 5322 style
address check with quoted local parts and IP-literal domains, compiled
with `re.IGNORECASE`). -/
def EMAIL_REGEX : Re :=
  .cat
    (.alt
      (.cat
        (rplus (.cls [('a', 'z'), ('0', '9'), rchar '!', rchar '#',
          rchar '$', rchar '%', rchar '&', rhex 39 39, rchar '*',
          rchar '+', rchar '/', rchar '=', rchar '?', rchar '^',
          rchar '_', rhex 96 96, rhex 123 123, rchar '|', rhex 125 125,
          rchar '~', rchar '-']))
        (.star (.cat (lit '.')
          (rplus (.cls [('a', 'z'), ('0', '9'), rchar '!', rchar '#',
            rchar '$', rchar '%', rchar '&', rhex 39 39, rchar '*',
            rchar '+', rchar '/', rchar '=', rchar '?', rchar '^',
            rchar '_', rhex 96 96, rhex 123 123, rchar '|', rhex 125 125,
            rchar '~', rchar '-'])))))
      (rseq [lit '"',
        .star (.alt
          (.cls [rhex 1 8, rhex 11 11, rhex 12 12, rhex 14 31,
            rhex 33 33, rhex 35 91, rhex 93 127])
          (.cat (lit '\\') (.cls [rhex 1 9, rhex 11 11, rhex 12 12,
            rhex 14 127]))),
        lit '"']))
    (.cat (lit '@')
      (.alt
        (.cat
          (rplus (rseq [.cls [('a', 'z'), ('0', '9')],
            ropt (.cat (.star (.cls [('a', 'z'), ('0', '9'), rchar '-']))
              (.cls [('a', 'z'), ('0', '9')])),
            lit '.']))
          (rseq [.cls [('a', 'z'), ('0', '9')],
            ropt (.cat (.star (.cls [('a', 'z'), ('0', '9'), rchar '-']))
              (.cls [('a', 'z'), ('0', '9')]))]))
        (rseq [lit '[',
          rrep (.cat
            (.alt (rseq [lit '2', lit '5', .cls [('0', '5')]])
              (.alt (rseq [lit '2', .cls [('0', '4')], .cls [('0', '9')]])
                (rseq [ropt (.cls [('0', '1')]), .cls [('0', '9')],
                  ropt (.cls [('0', '9')])])))
            (lit '.')) 3,
          .alt (.alt (rseq [lit '2', lit '5', .cls [('0', '5')]])
              (.alt (rseq [lit '2', .cls [('0', '4')], .cls [('0', '9')]])
                (rseq [ropt (.cls [('0', '1')]), .cls [('0', '9')],
                  ropt (.cls [('0', '9')])])))
            (rseq [.star (.cls [('a', 'z'), ('0', '9'), rchar '-']),
              .cls [('a', 'z'), ('0', '9')], lit ':',
              rplus (.alt
                (.cls [rhex 1 8, rhex 11 11, rhex 12 12, rhex 14 31,
                  rhex 33 90, rhex 83 127])
                (.cat (lit '\\') (.cls [rhex 1 9, rhex 11 11,
                  rhex 12 12, rhex 14 127])))]),
          lit ']'])))

/-- Embedding of `is_valid_email` from `src/mcp_server/gmail/utils.py`:
`bool(EMAIL_REGEX.match(email))`. -/
def is_valid_email (email : String) : Bool :=
  pyFullMatch EMAIL_REGEX email

end McpToolbox.Gmail

namespace McpToolbox

/-- A Python value as far as the Calendar validators distinguish them:
a string, or any non-string value (the Calendar copies guard on
`isinstance(value, str)`). -/
inductive PyValue where
  | pstr : String → PyValue
  | nonString : PyValue
deriving DecidableEq

end McpToolbox

namespace McpToolbox.GoogleCalendar

/-- Transcription of the module-level `EMAIL_REGEX` pattern of
`src/mcp_server/google_calendar/utils.py` (textually the same pattern
as the Gmail copy, compiled with `re.IGNORECASE`). -/
def EMAIL_REGEX : Re :=
  .cat
    (.alt
      (.cat
        (rplus (.cls [('a', 'z'), ('0', '9'), rchar '!', rchar '#',
          rchar '$', rchar '%', rchar '&', rhex 39 39, rchar '*',
          rchar '+', rchar '/', rchar '=', rchar '?', rchar '^',
          rchar '_', rhex 96 96, rhex 123 123, rchar '|', rhex 125 125,
          rchar '~', rchar '-']))
        (.star (.cat (lit '.')
          (rplus (.cls [('a', 'z'), ('0', '9'), rchar '!', rchar '#',
            rchar '$', rchar '%', rchar '&', rhex 39 39, rchar '*',
            rchar '+', rchar '/', rchar '=', rchar '?', rchar '^',
            rchar '_', rhex 96 96, rhex 123 123, rchar '|', rhex 125 125,
            rchar '~', rchar '-'])))))
      (rseq [lit '"',
        .star (.alt
          (.cls [rhex 1 8, rhex 11 11, rhex 12 12, rhex 14 31,
            rhex 33 33, rhex 35 91, rhex 93 127])
          (.cat (lit '\\') (.cls [rhex 1 9, rhex 11 11, rhex 12 12,
            rhex 14 127]))),
        lit '"']))
    (.cat (lit '@')
      (.alt
        (.cat
          (rplus (rseq [.cls [('a', 'z'), ('0', '9')],
            ropt (.cat (.star (.cls [('a', 'z'), ('0', '9'), rchar '-']))
              (.cls [('a', 'z'), ('0', '9')])),
            lit '.']))
          (rseq [.cls [('a', 'z'), ('0', '9')],
            ropt (.cat (.star (.cls [('a', 'z'), ('0', '9'), rchar '-']))
              (.cls [('a', 'z'), ('0', '9')]))]))
        (rseq [lit '[',
          rrep (.cat
            (.alt (rseq [lit '2', lit '5', .cls [('0', '5')]])
              (.alt (rseq [lit '2', .cls [('0', '4')], .cls [('0', '9')]])
                (rseq [ropt (.cls [('0', '1')]), .cls [('0', '9')],
                  ropt (.cls [('0', '9')])])))
            (lit '.')) 3,
          .alt (.alt (rseq [lit '2', lit '5', .cls [('0', '5')]])
              (.alt (rseq [lit '2', .cls [('0', '4')], .cls [('0', '9')]])
                (rseq [ropt (.cls [('0', '1')]), .cls [('0', '9')],
                  ropt (.cls [('0', '9')])])))
            (rseq [.star (.cls [('a', 'z'), ('0', '9'), rchar '-']),
              .cls [('a', 'z'), ('0', '9')], lit ':',
              rplus (.alt
                (.cls [rhex 1 8, rhex 11 11, rhex 12 12, rhex 14 31,
                  rhex 33 90, rhex 83 127])
                (.cat (lit '\\') (.cls [rhex 1 9, rhex 11 11,
                  rhex 12 12, rhex 14 127])))]),
          lit ']'])))

/-- Embedding of `is_valid_email` from
`src/mcp_server/google_calendar/utils.py`: it first guards
`isinstance(email, str)` and then runs `EMAIL_REGEX.match`. -/
def is_valid_email : PyValue → Bool
  | .pstr s => pyFullMatch EMAIL_REGEX s
  | .nonString => false

/-- ASCII decimal digit, embedding `\d` of the source patterns.  (The
development reads `\d` as the ASCII digits `0-9`; this is exact on
ASCII input, which is the domain the spec discusses.) -/
def isDig (c : Char) : Bool := decide ('0' ≤ c) && decide (c ≤ '9')

/-- Consume exactly `n` digits. -/
def expectDigits : Nat → List Char → Option (List Char)
  | 0, l => some l
  | n + 1, c :: l => if isDig c then expectDigits n l else none
  | _ + 1, [] => none

/-- Consume exactly the character `c`. -/
def expectChar (c : Char) : List Char → Option (List Char)
  | d :: l => if d = c then some l else none
  | [] => none

/-- Consume the optional fractional part `(?:\.\d+)?` of
`RFC3339_REGEX`.  The pattern is deterministic here because the
following alternative `(?:Z|[+-]\d{2}:\d{2})` can start neither with a
dot nor with a digit, so greedy scanning is exact. -/
def scanFrac : List Char → Option (List Char)
  | [] => some []
  | c :: l =>
      if c = '.' then
        if (l.takeWhile isDig).isEmpty then none
        else some (l.dropWhile isDig)
      else some (c :: l)

/-- Consume the trailing offset alternative `(?:Z|[+-]\d{2}:\d{2})`. -/
def scanOffset : List Char → Option (List Char)
  | [] => none
  | c :: l =>
      if c = 'Z' then some l
      else if c = '+' || c = '-' then
        (expectDigits 2 l).bind fun l =>
          (expectChar ':' l).bind fun l =>
            expectDigits 2 l
      else none

/-- Deterministic scanner transcribing the body of `RFC3339_REGEX`
(`^\d{4}-\d{2}-\d{2}T\d{2}:\d{2}:\d{2}(?:\.\d+)?(?:Z|[+-]\d{2}:\d{2})$`)
from `src/mcp_server/google_calendar/utils.py`. -/
def rfc3339Scan (l : List Char) : Option (List Char) :=
  (expectDigits 4 l).bind fun l =>
    (expectChar '-' l).bind fun l =>
      (expectDigits 2 l).bind fun l =>
        (expectChar '-' l).bind fun l =>
          (expectDigits 2 l).bind fun l =>
            (expectChar 'T' l).bind fun l =>
              (expectDigits 2 l).bind fun l =>
                (expectChar ':' l).bind fun l =>
                  (expectDigits 2 l).bind fun l =>
                    (expectChar ':' l).bind fun l =>
                      (expectDigits 2 l).bind fun l =>
                        (scanFrac l).bind fun l =>
                          scanOffset l

/-- Whole-list match of `RFC3339_REGEX` (without the `$` newline
allowance). -/
def rfc3339Core (l : List Char) : Bool :=
  match rfc3339Scan l with
  | some [] => true
  | _ => false

/-- Embedding of `validate_rfc3339_timestamp` from
`src/mcp_server/google_calendar/utils.py`: truthiness of
`RFC3339_REGEX.match(value)`, including the CPython semantics of `$`
(which also matches just before a single trailing newline). -/
def validate_rfc3339_timestamp (value : String) : Bool :=
  rfc3339Core value.data ||
    (decide (value.data.getLast? = some (Char.ofNat 10)) &&
      rfc3339Core value.data.dropLast)

end McpToolbox.GoogleCalendar

namespace McpToolbox.GoogleCalendar

/-- A parsed `datetime.datetime` as far as the tool layer observes it:
calendar fields plus an optional UTC offset in microseconds east of
UTC (the value of `utcoffset()` as a timedelta).  `utcoffset = none`
embeds a naive datetime, `some k` an aware one. -/
structure PyDateTime where
  year : Nat
  month : Nat
  day : Nat
  hour : Nat
  minute : Nat
  second : Nat
  microsecond : Nat
  utcoffset : Option Int
deriving DecidableEq

/-- Numeric value of an ASCII digit. -/
def digitVal (c : Char) : Nat := c.toNat - 48

/-- Read exactly `n` digits, accumulating their value onto `acc`. -/
def readDigits : Nat → Nat → List Char → Option (Nat × List Char)
  | 0, acc, l => some (acc, l)
  | n + 1, acc, c :: l =>
      if isDig c then readDigits n (acc * 10 + digitVal c) l else none
  | _ + 1, _, [] => none

/-- Leap-year rule of the proleptic Gregorian calendar used by
`datetime`. -/
def isLeap (y : Nat) : Bool :=
  y % 4 = 0 && (y % 100 != 0 || y % 400 = 0)

/-- Days in a month of the proleptic Gregorian calendar. -/
def daysInMonth (y m : Nat) : Nat :=
  if m = 2 then (if isLeap y then 29 else 28)
  else if m = 4 || m = 6 || m = 9 || m = 11 then 30
  else 31

/-- Days in the months strictly before month `m` of year `y`. -/
def daysBeforeMonth (y m : Nat) : Nat :=
  (List.range (m - 1)).foldl (fun acc i => acc + daysInMonth y (i + 1)) 0

/-- Proleptic Gregorian ordinal of a date (day 1 = 0001-01-01), as in
`datetime.date.toordinal`. -/
def toOrdinal (y m d : Nat) : Nat :=
  (y - 1) * 365 + (y - 1) / 4 - (y - 1) / 100 + (y - 1) / 400 +
    daysBeforeMonth y m + d

/-- Embedding of the fractional-second part: a dot or comma followed
by one or more digits (CPython 3.11+ accepts any number of digits and
either decimal sign); the first six digits (right-padded with zeros)
give the microsecond value. -/
def readFraction : List Char → Option (Nat × List Char)
  | [] => some (0, [])
  | c :: l =>
      if c = '.' || c = ',' then
        let ds := l.takeWhile isDig
        if ds.isEmpty then none
        else
          let first6 := ds.take 6
          let v := first6.foldl (fun acc c => acc * 10 + digitVal c) 0
          some (v * 10 ^ (6 - first6.length), l.dropWhile isDig)
      else some (0, c :: l)

/-- Optional `:SS[.ffffff]` tail of a time or offset: seconds and
microseconds, defaulting to zero. -/
def readSecFrac : List Char → Option ((Nat × Nat) × List Char)
  | ':' :: l =>
      (readDigits 2 0 l).bind fun (s, l) =>
        (readFraction l).map fun (us, l) => ((s, us), l)
  | l => some ((0, 0), l)

/-- Embedding of the trailing UTC offset `±HH:MM[:SS[.ffffff]]`
accepted by `datetime.fromisoformat`: the hour, minute and second
components carry no individual range checks (minutes above 59 are
legal), only the total magnitude must stay strictly below 24 hours,
as `datetime.timezone` requires.  Returns microseconds east of UTC. -/
def readOffset : List Char → Option (Option Int × List Char)
  | [] => some (none, [])
  | c :: l =>
      if c = '+' || c = '-' then
        (readDigits 2 0 l).bind fun (oh, l) =>
          (expectChar ':' l).bind fun l =>
            (readDigits 2 0 l).bind fun (om, l) =>
              (readSecFrac l).bind fun (sus, l) =>
                let total : Nat :=
                  ((oh * 60 + om) * 60 + sus.1) * 1000000 + sus.2
                if total < 24 * 60 * 60 * 1000000 then
                  some (some (if c = '+' then (total : Int)
                    else -(total : Int)), l)
                else none
      else none

/-- Optional `:MM[:SS[.ffffff]]` tail after the hour of the time part:
minute, second and microsecond, defaulting to zero (an hour-only time
such as `2025-01-01T00` is legal `fromisoformat` input). -/
def readMinSecFrac : List Char → Option ((Nat × Nat × Nat) × List Char)
  | ':' :: l =>
      (readDigits 2 0 l).bind fun (mi, l) =>
        (readSecFrac l).map fun (sus, l) => ((mi, sus.1, sus.2), l)
  | l => some ((0, 0, 0), l)

/-- Embedding of `datetime.datetime.fromisoformat` on the grammar
`YYYY-MM-DD[<sep>HH[:MM[:SS[.ffffff]]]][±HH:MM[:SS[.ffffff]]]` that
every supported CPython accepts: `<sep>` is any single character, the
time may stop after the hour, minute or second, and the offset hour,
minute and second components are unchecked apart from the strict
24-hour bound on the total.  The `datetime` constructor's range
checks (month, day-in-month, hour ≤ 23, minute ≤ 59, second ≤ 59)
reject the parse with `ValueError`, embedded as `none`. -/
def fromisoformat (l : List Char) : Option PyDateTime :=
  (readDigits 4 0 l).bind fun (y, l) =>
    (expectChar '-' l).bind fun l =>
      (readDigits 2 0 l).bind fun (mo, l) =>
        (expectChar '-' l).bind fun l =>
          (readDigits 2 0 l).bind fun (d, l) =>
            if y < 1 || mo < 1 || mo > 12 || d < 1 || d > daysInMonth y mo then
              none
            else
              match l with
              | [] => some ⟨y, mo, d, 0, 0, 0, 0, none⟩
              | _ :: l =>
                  (readDigits 2 0 l).bind fun (h, l) =>
                    (readMinSecFrac l).bind fun (msf, l) =>
                      (readOffset l).bind fun (off, l) =>
                        if l.isEmpty && h ≤ 23 && msf.1 ≤ 59 && msf.2.1 ≤ 59
                        then some ⟨y, mo, d, h, msf.1, msf.2.1, msf.2.2, off⟩
                        else none

/-- The wall-clock comparison key of a datetime, in microseconds from
the epoch of day ordinal zero. -/
def naiveKey (t : PyDateTime) : Nat :=
  ((((toOrdinal t.year t.month t.day * 24 + t.hour) * 60 + t.minute)
      * 60 + t.second)) * 1000000 + t.microsecond

/-- The instant an aware datetime denotes: its wall clock with the
UTC offset (microseconds east) removed. -/
def instant (t : PyDateTime) (off : Int) : Int :=
  (naiveKey t : Int) - off

/-- Exceptions the comparison in
`is_rfc3339_start_time_before_end_time` can raise past its
`except ValueError` handler. -/
inductive PyError where
  | typeError : PyError
deriving DecidableEq

instance {ε α : Type} [DecidableEq ε] [DecidableEq α] :
    DecidableEq (Except ε α) := fun a b =>
  match a, b with
  | .ok x, .ok y =>
      if h : x = y then isTrue (by rw [h]) else
        isFalse (by intro hc; cases hc; exact h rfl)
  | .error x, .error y =>
      if h : x = y then isTrue (by rw [h]) else
        isFalse (by intro hc; cases hc; exact h rfl)
  | .ok _, .error _ => isFalse (by intro hc; cases hc)
  | .error _, .ok _ => isFalse (by intro hc; cases hc)

/-- Python `datetime` order: naive pairs compare by wall clock, aware
pairs by instant, and a mixed pair raises `TypeError`. -/
def dtLt (a b : PyDateTime) : Except PyError Bool :=
  match a.utcoffset, b.utcoffset with
  | some oa, some ob => .ok (decide (instant a oa < instant b ob))
  | none, none => .ok (decide (naiveKey a < naiveKey b))
  | _, _ => .error .typeError

/-- Embedding of `start.replace("Z", "+00:00")`: every occurrence of
the character `Z` is rewritten. -/
def replaceZ : List Char → List Char
  | [] => []
  | c :: l =>
      if c = 'Z' then '+' :: '0' :: '0' :: ':' :: '0' :: '0' :: replaceZ l
      else c :: replaceZ l

/-- Embedding of `is_rfc3339_start_time_before_end_time` from
`src/mcp_server/google_calendar/utils.py`: parse both strings with
`Z` rewritten to `+00:00`, compare with `<`, and catch only
`ValueError` (a parse failure), returning `False`; a `TypeError`
raised by the comparison of a naive with an aware datetime is not
caught and escapes. -/
def is_rfc3339_start_time_before_end_time (start «end» : String) :
    Except PyError Bool :=
  match fromisoformat (replaceZ start.data),
      fromisoformat (replaceZ «end».data) with
  | some s, some e => dtLt s e
  | _, _ => .ok false

end McpToolbox.GoogleCalendar

namespace McpToolbox

/-- The uniform response envelope of a tool operation, with the
optional fields the Gmail operations attach.  A `none` field embeds an
absent dictionary key. -/
structure ToolResult where
  status : String
  message : Option String := none
  warning : Option String := none
  invalid_emails_in_to : Option (List String) := none
  invalid_emails_in_cc : Option (List String) := none
  invalid_emails_in_bcc : Option (List String) := none
  event : Option String := none
deriving DecidableEq

/-- The `{status: error, message: ...}` envelope both exception
wrappers construct. -/
def errorResult (msg : String) : ToolResult :=
  { status := "error", message := some msg }

/-- An exception escaping a tool body, as the wrappers distinguish
them: a provider `HttpError` carrying a numeric status and a reason,
or any other `Exception` with its string rendering. -/
inductive PyExc where
  | http : Nat → String → PyExc
  | generic : String → PyExc
deriving DecidableEq

end McpToolbox

namespace McpToolbox.Gmail

/-- The fixed status-code message table of `handle_gmail_exceptions`
(`src/mcp_server/gmail/utils.py`), transcribed with the exact
triple-quoted text of the source. -/
def httpErrorMessage (status : Nat) (reason : String) : String :=
  if status = 400 then
    "Bad request. \n                Please check if required fields are valid."
  else if status = 401 then
    "Unauthorized access. \n                Check if the credentials are valid or expired."
  else if status = 403 then
    "Permission denied. \n                Ensure your OAuth scope includes gmail access and that the \n                authenticated user has permission to perform this action."
  else if status = 404 then
    "Resource not found. \n                The email or message may not exist or was deleted."
  else if status = 409 then
    "Conflict error. \n                This could be due to duplicate operations."
  else if status = 410 then
    "The resource is no longer available and no \n                forwarding address is known."
  else if status = 412 then
    "Precondition failed. \n                Try syncing again or verify versioning headers like etag."
  else if status = 429 then
    "Quota exceeded. Too many requests.\n                Try again later or use exponential backoff."
  else if status = 500 || status = 503 then
    "Gmail service is temporarily unavailable. \n                Please retry after some time."
  else
    "Unexpected error with Gmail API: " ++ reason

/-- Embedding of the `handle_gmail_exceptions` decorator from
`src/mcp_server/gmail/utils.py`: run the wrapped body; an `HttpError`
becomes an error envelope through the message table, any other
exception becomes the generic unexpected-error envelope, and a normal
result passes through unchanged. -/
def handle_gmail_exceptions (body : Except PyExc ToolResult) : ToolResult :=
  match body with
  | .ok r => r
  | .error (.http status reason) => errorResult (httpErrorMessage status reason)
  | .error (.generic cause) =>
      errorResult ("An unexpected error occurred: " ++ cause)

end McpToolbox.Gmail

namespace McpToolbox.GoogleCalendar

/-- The fixed status-code message table of
`handle_google_calendar_exceptions`
(`src/mcp_server/google_calendar/utils.py`). -/
def httpErrorMessage (status : Nat) (reason : String) : String :=
  if status = 400 then
    "Bad request. Please check if required fields like summary, time zone, or event timing are valid."
  else if status = 401 then
    "Unauthorized access. Check if the credentials are valid or expired."
  else if status = 403 then
    "Permission denied. Ensure your OAuth scope includes calendar access and that authenticated user has permission to perform this action."
  else if status = 404 then
    "Resource not found. The calendar or event may not exist or was deleted."
  else if status = 409 then
    "Conflict error. This could be due to duplicate operations."
  else if status = 410 then
    "The resource is no longer available."
  else if status = 412 then
    "Precondition failed. Try syncing again or verify versioning headers."
  else if status = 429 then
    "Quota exceeded. Too many requests. Try again later or use exponential backoff."
  else if status = 500 || status = 503 then
    "The Google Calendar service is temporarily unavailable. Please retry after some time."
  else
    "Unexpected error with the Calendar API: " ++ reason

/-- Embedding of the `handle_google_calendar_exceptions` decorator
from `src/mcp_server/google_calendar/utils.py`. -/
def handle_google_calendar_exceptions (body : Except PyExc ToolResult) :
    ToolResult :=
  match body with
  | .ok r => r
  | .error (.http status reason) => errorResult (httpErrorMessage status reason)
  | .error (.generic cause) =>
      errorResult ("An unexpected error occurred: " ++ cause)

end McpToolbox.GoogleCalendar

namespace McpToolbox

/-- Python `\s` on the ASCII range: the whitespace class used by
`re.split(",\s*", ...)` and `str.strip()`. -/
def pyIsSpace (c : Char) : Bool :=
  c = ' ' || c = '\t' || c = '\n' || c = '\r' ||
    c = Char.ofNat 11 || c = Char.ofNat 12

/-- Embedding of `str.strip()` on the character list. -/
def pyStripList (l : List Char) : List Char :=
  ((l.dropWhile pyIsSpace).reverse.dropWhile pyIsSpace).reverse

/-- Embedding of `str.strip()`. -/
def pyStrip (s : String) : String := ⟨pyStripList s.data⟩

/-- Python truthiness of a string: nonempty. -/
def pyTruthy (s : String) : Bool := !s.data.isEmpty

/-- Python truthiness of an optional string (`None` is falsy). -/
def optTruthy : Option String → Bool
  | some s => pyTruthy s
  | none => false

/-- How Python renders a value interpolated into an f-string when it
may be `None`. -/
def pyShowOpt : Option String → String
  | some s => s
  | none => "None"

/-- Embedding of `re.sub(r"[\(\)\[\]\{\}\<\>]", "", s)`: drop every
round, square, curly or angle bracket. -/
def removeBrackets (s : String) : String :=
  ⟨s.data.filter fun c =>
    !(c = '(' || c = ')' || c = '[' || c = ']' || c = Char.ofNat 123 ||
      c = Char.ofNat 125 || c = '<' || c = '>')⟩

/-- Embedding of `re.split(r",\s*", s)`: cut at every comma and drop
the whitespace run that follows it.  The `skipping` flag is set right
after a comma, while the `\s*` of the separator is still being
consumed. -/
def splitCommaWsAux : List Char → List Char → Bool → List (List Char)
  | [], acc, _ => [acc.reverse]
  | c :: rest, acc, skipping =>
      if skipping && pyIsSpace c then splitCommaWsAux rest acc true
      else if c = ',' then acc.reverse :: splitCommaWsAux rest [] true
      else splitCommaWsAux rest (c :: acc) false

/-- The split `re.split(r",\s*", s)` as a list of strings. -/
def pySplitCommaWs (s : String) : List String :=
  (splitCommaWsAux s.data [] false).map fun l => ⟨l⟩

/-- The comma join `", ".join` of a list of strings. -/
def joinComma (l : List String) : String := String.intercalate ", " l

end McpToolbox

namespace McpToolbox.Gmail

/-- The MIME message the Gmail operations assemble with `MIMEText` and
header assignment.  Recipient headers are kept as the list of strings
the source joins with `", "` (in `update_draft` the list passes
through a Python `set`, whose enumeration order is unspecified, so
properties are stated about the underlying address multiset/set);
`none` embeds an unset header.  The urlsafe-base64 transport encoding
of the assembled message is a bijection and is elided. -/
structure MimeMessage where
  bodyText : String
  To : Option (List String) := none
  Cc : Option (List String) := none
  Bcc : Option (List String) := none
  Subject : Option String := none
  From : Option String := none
  InReplyTo : Option String := none
  References : Option String := none
deriving DecidableEq

/-- The request body handed to the provider send/draft endpoints. -/
structure MessagePayload where
  raw : MimeMessage
  threadId : Option String := none
deriving DecidableEq

/-- A Gmail provider API invocation, as issued by the embedded
operations (the OAuth service bootstrap is an external collaborator
and is not traced). -/
inductive GmailCall where
  | messagesSend : String → MessagePayload → GmailCall
  | messagesTrash : String → String → GmailCall
  | draftsCreate : String → MessagePayload → GmailCall
  | draftsGet : String → String → GmailCall
  | draftsUpdate : String → String → MessagePayload → GmailCall
deriving DecidableEq

/-- The `for email in re.split(r",\s*", field)` loops of
`send_message` and `create_draft` over a bracket-stripped field:
entries whose stripped form passes `is_valid_email` are kept verbatim,
the others are collected stripped. -/
def classifyEmails (raw : String) : List String × List String :=
  let entries := pySplitCommaWs (removeBrackets raw)
  (entries.filter fun e => is_valid_email (pyStrip e),
    (entries.filter fun e => !is_valid_email (pyStrip e)).map pyStrip)

/-- Embedding of `subject.lower().startswith("re:")`. -/
def lowerStartsWithRe (s : String) : Bool :=
  (s.data.map Char.toLower).take 3 = ['r', 'e', ':']

/-- The defaulted subject: `"(No Subject)" if not subject or not
subject.strip() else subject`, then the `Re:` prefixing applied when
`in_reply_to` is set. -/
def effectiveSubject (subject in_reply_to : Option String) : String :=
  let subj0 :=
    if optTruthy subject && pyTruthy (pyStrip (subject.getD "")) then
      subject.getD ""
    else "(No Subject)"
  if optTruthy in_reply_to && !lowerStartsWithRe subj0 then "Re: " ++ subj0
  else subj0

/-- Embedding of `send_message` from `src/mcp_server/gmail/server.py`.
`sendRespId` is `response.get("id")` of the provider send call.  The
second component records the provider calls issued. -/
def send_message (user_id «to» body : String)
    (subject cc bcc thread_id in_reply_to : Option String)
    (sendRespId : Option String) : ToolResult × List GmailCall :=
  if !pyTruthy user_id || !pyTruthy (pyStrip user_id) then
    (errorResult "User Id cannot be empty.", [])
  else if user_id ≠ "me" && !is_valid_email user_id then
    (errorResult "Invalid User Id format.", [])
  else if !pyTruthy «to» || !pyTruthy (pyStrip «to») then
    (errorResult "Recipient email id cannot be empty.", [])
  else
    let entries := pySplitCommaWs (removeBrackets «to»)
    match entries.find? fun e => !is_valid_email (pyStrip e) with
    | some e =>
        (errorResult ("Invalid recipient email address: " ++ pyStrip e ++ "."),
          [])
    | none =>
        let subj := effectiveSubject subject in_reply_to
        let (valid_cc, invalid_cc) :=
          if optTruthy cc then classifyEmails (cc.getD "") else ([], [])
        let (valid_bcc, invalid_bcc) :=
          if optTruthy bcc then classifyEmails (bcc.getD "") else ([], [])
        let msg : MimeMessage :=
          { bodyText := if pyTruthy body then body else "",
            To := some entries,
            From := some (if user_id = "me" then "me" else user_id),
            Subject := some subj,
            Cc := if valid_cc.isEmpty then none else some valid_cc,
            Bcc := if valid_bcc.isEmpty then none else some valid_bcc,
            InReplyTo := if optTruthy in_reply_to then in_reply_to else none,
            References := if optTruthy in_reply_to then in_reply_to else none }
        let payload : MessagePayload :=
          { raw := msg,
            threadId := if optTruthy thread_id then thread_id else none }
        let tags :=
          (if invalid_cc.isEmpty then [] else ["cc"]) ++
            (if invalid_bcc.isEmpty then [] else ["bcc"])
        let result : ToolResult :=
          { status := "success",
            message := some ("Email delivered with id: " ++ pyShowOpt sendRespId),
            invalid_emails_in_cc :=
              if invalid_cc.isEmpty then none else some invalid_cc,
            invalid_emails_in_bcc :=
              if invalid_bcc.isEmpty then none else some invalid_bcc,
            warning :=
              if tags.isEmpty then none
              else some ("Skipped some invalid email addresses from " ++
                String.intercalate " and " tags ++ ".") }
        (result, [.messagesSend user_id payload])

/-- Embedding of `trash_message` from
`src/mcp_server/gmail/server.py`. -/
def trash_message (user_id message_id : String) :
    ToolResult × List GmailCall :=
  if !pyTruthy user_id || !pyTruthy (pyStrip user_id) then
    (errorResult "User Id cannot be empty.", [])
  else if user_id ≠ "me" && !is_valid_email user_id then
    (errorResult "Invalid User Id format.", [])
  else if !pyTruthy message_id || !pyTruthy (pyStrip message_id) then
    (errorResult "Message Id cannot be empty.", [])
  else
    ({ status := "success",
       message := some ("Message with id: " ++ message_id ++
         " has been trashed.") },
      [.messagesTrash user_id message_id])

/-- Embedding of `create_draft` from `src/mcp_server/gmail/server.py`.
Unlike `send_message`, an invalid `to` entry does not fail the call:
it is dropped and reported, and only a draft with no remaining
recipient field at all is rejected. -/
def create_draft (user_id : String)
    («to» body subject cc bcc thread_id in_reply_to : Option String)
    (createRespId : Option String) : ToolResult × List GmailCall :=
  if !pyTruthy user_id || !pyTruthy (pyStrip user_id) then
    (errorResult "User Id cannot be empty.", [])
  else if user_id ≠ "me" && !is_valid_email user_id then
    (errorResult "Invalid User Id format.", [])
  else
    let processTo := optTruthy «to» && pyTruthy (pyStrip («to».getD ""))
    let (valid_to, invalid_to) :=
      if processTo then classifyEmails («to».getD "") else ([], [])
    let toAfter : Option String :=
      if processTo then some (joinComma valid_to) else «to»
    let subj := effectiveSubject subject in_reply_to
    let (valid_cc, invalid_cc) :=
      if optTruthy cc then classifyEmails (cc.getD "") else ([], [])
    let ccAfter : Option String :=
      if optTruthy cc then some (removeBrackets (cc.getD "")) else cc
    let (valid_bcc, invalid_bcc) :=
      if optTruthy bcc then classifyEmails (bcc.getD "") else ([], [])
    let bccAfter : Option String :=
      if optTruthy bcc then some (removeBrackets (bcc.getD "")) else bcc
    if !(optTruthy toAfter || optTruthy ccAfter || optTruthy bccAfter) then
      (errorResult "Draft cannot be empty.", [])
    else
      let msg : MimeMessage :=
        { bodyText := if optTruthy body then body.getD "" else "",
          From := if user_id = "me" then none else some user_id,
          To :=
            if optTruthy toAfter then
              some (if processTo then valid_to else [«to».getD ""])
            else none,
          Subject := some subj,
          Cc := if valid_cc.isEmpty then none else some valid_cc,
          Bcc := if valid_bcc.isEmpty then none else some valid_bcc,
          InReplyTo := if optTruthy in_reply_to then in_reply_to else none,
          References := if optTruthy in_reply_to then in_reply_to else none }
      let payload : MessagePayload :=
        { raw := msg,
          threadId := if optTruthy thread_id then thread_id else none }
      let tags :=
        (if invalid_to.isEmpty then [] else ["to"]) ++
          (if invalid_cc.isEmpty then [] else ["cc"]) ++
            (if invalid_bcc.isEmpty then [] else ["bcc"])
      let result : ToolResult :=
        { status := "success",
          message := some ("Draft created with id: " ++
            pyShowOpt createRespId),
          invalid_emails_in_to :=
            if invalid_to.isEmpty then none else some invalid_to,
          invalid_emails_in_cc :=
            if invalid_cc.isEmpty then none else some invalid_cc,
          invalid_emails_in_bcc :=
            if invalid_bcc.isEmpty then none else some invalid_bcc,
          warning :=
            if tags.isEmpty then none
            else some ("Skipped invalid emails from " ++
              String.intercalate ", " tags) }
      (result, [.draftsCreate user_id payload])

/-- One MIME part of the fetched draft payload, as `update_draft`
reads it; `partData` is the (decoded) `body.data` when present. -/
structure DraftPart where
  mimeType : String
  partData : Option String
deriving DecidableEq

/-- The fetched draft message payload `update_draft` starts from:
`bodyData` is the top-level `body.data` (decoded) when present,
`parts` the optional MIME parts, and `headers` the name/value list of
the stored headers. -/
structure DraftMessagePayload where
  bodyData : Option String := none
  parts : Option (List DraftPart) := none
  headers : List (String × String) := []
deriving DecidableEq

/-- The headers dict `{h["name"]: h["value"] for h in ...}.get(name,
default)`: on duplicate names the last entry wins. -/
def headerLookup (hs : List (String × String)) (name default : String) :
    String :=
  match hs.reverse.find? fun h => h.1 = name with
  | some h => h.2
  | none => default

/-- The previously stored body `update_draft` recovers: the top-level
body data when present, else the first `text/plain` part carrying
data, else the empty string. -/
def existingBody (p : DraftMessagePayload) : String :=
  match p.bodyData with
  | some d => d
  | none =>
      match p.parts with
      | some ps =>
          match ps.find? fun pt =>
              pt.mimeType = "text/plain" && pt.partData.isSome with
          | some pt => pt.partData.getD ""
          | none => ""
      | none => ""

/-- The add/remove reconciliation `update_draft` applies to one
recipient header: split the stored value, append each valid `add`
entry, `list.remove` each valid `remove` entry (first occurrence, a
silent no-op when absent), and collect the invalid entries of both
lists. -/
def applyRecipientOps (p : DraftMessagePayload) (headerName : String)
    (addL removeL : Option (List String)) : List String × List String :=
  let existingL :=
    (pySplitCommaWs (headerLookup p.headers headerName "")).filter
      fun x => pyTruthy x
  let afterAdd := existingL ++ (addL.getD []).filter is_valid_email
  let afterRemove :=
    ((removeL.getD []).filter is_valid_email).foldl
      (fun l e => l.erase e) afterAdd
  (afterRemove,
    (addL.getD []).filter (fun e => !is_valid_email e) ++
      (removeL.getD []).filter fun e => !is_valid_email e)

/-- Embedding of `update_draft` from `src/mcp_server/gmail/server.py`.
`existing` is the payload of the fetched draft and `updateRespId` the
`id` of the provider update response.  Each rebuilt recipient header
is `", ".join(list(set(...)))`; the `set` enumeration order is
unspecified in Python and is embedded as `List.dedup`. -/
def update_draft (user_id draft_id : String) (body subject : Option String)
    (add_to remove_to add_cc remove_cc add_bcc remove_bcc :
      Option (List String))
    (existing : DraftMessagePayload) (updateRespId : String) :
    ToolResult × List GmailCall :=
  if !pyTruthy user_id || !pyTruthy (pyStrip user_id) then
    (errorResult "User Id cannot be empty.", [])
  else if user_id ≠ "me" && !is_valid_email user_id then
    (errorResult "Invalid User Id format.", [])
  else if !pyTruthy draft_id || !pyTruthy (pyStrip draft_id) then
    (errorResult "Draft Id cannot be empty.", [])
  else
    let subj :=
      if optTruthy subject then
        if pyTruthy (pyStrip (subject.getD "")) then pyStrip (subject.getD "")
        else "(No Subject)"
      else headerLookup existing.headers "Subject" "(No Subject)"
    let (toL, invalid_to) := applyRecipientOps existing "To" add_to remove_to
    let (ccL, invalid_cc) := applyRecipientOps existing "Cc" add_cc remove_cc
    let (bccL, invalid_bcc) :=
      applyRecipientOps existing "Bcc" add_bcc remove_bcc
    let msg : MimeMessage :=
      { bodyText := body.getD (existingBody existing),
        Subject := some subj,
        To := some toL.dedup,
        Cc := some ccL.dedup,
        Bcc := some bccL.dedup }
    let payload : MessagePayload := { raw := msg }
    let tags :=
      (if invalid_to.isEmpty then [] else ["to"]) ++
        (if invalid_cc.isEmpty then [] else ["cc"]) ++
          (if invalid_bcc.isEmpty then [] else ["bcc"])
    let result : ToolResult :=
      { status := "success",
        message := some ("Draft updated successfully with id: " ++
          updateRespId ++ "."),
        invalid_emails_in_to :=
          if invalid_to.isEmpty then none else some invalid_to,
        invalid_emails_in_cc :=
          if invalid_cc.isEmpty then none else some invalid_cc,
        invalid_emails_in_bcc :=
          if invalid_bcc.isEmpty then none else some invalid_bcc,
        warning :=
          if tags.isEmpty then none
          else some ("Skipped invalid emails from " ++
            String.intercalate ", " tags) }
    (result,
      [.draftsGet user_id draft_id, .draftsUpdate user_id draft_id payload])

end McpToolbox.Gmail

namespace McpToolbox.GoogleCalendar

/-- The calendar metadata `calendars().get` returns, as far as the
guarded operations read it: `calendar.get("primary", False)` (an
absent key reads as false). -/
structure CalendarMeta where
  primary : Bool
deriving DecidableEq

/-- The request body `create_event` assembles for `events().insert`.
Keys written unconditionally keep their (possibly null) values as
`Option`; `description`, `recurrence`, `attendees` and
`conferenceData` keys are only added conditionally, with key absence
embedded as `none`/`false`.  The attendee dicts `{"email": e}` are
kept as the email strings; the Meet `createRequest` (a fresh UUID) is
embedded as the `conferenceData` flag. -/
structure InsertEventBody where
  summary : String
  location : Option String
  startDateTime : String
  startTimeZone : String
  endDateTime : String
  endTimeZone : String
  visibility : String
  guestsCanInviteOthers : Option Bool
  transparency : String
  guestsCanSeeOtherGuests : Option Bool
  conferenceDataVersion : Nat
  description : Option String := none
  recurrence : Option (List String) := none
  attendees : Option (List String) := none
  conferenceData : Bool := false
deriving DecidableEq

/-- The partial request body `update_event` assembles for
`events().patch`: every key is optional and present only when the
corresponding branch added it. -/
structure PatchEventBody where
  summary : Option String := none
  description : Option String := none
  location : Option String := none
  startDateTime : Option String := none
  startTimeZone : Option String := none
  endDateTime : Option String := none
  endTimeZone : Option String := none
  recurrence : Option (List String) := none
  visibility : Option String := none
  transparency : Option String := none
  guestsCanInviteOthers : Option Bool := none
  guestsCanSeeOtherGuests : Option Bool := none
deriving DecidableEq

/-- Embedding of `if not event_body:` — the patch body is the empty dict. -/
def PatchEventBody.isEmptyBody (b : PatchEventBody) : Bool :=
  b.summary.isNone && b.description.isNone && b.location.isNone &&
    b.startDateTime.isNone && b.startTimeZone.isNone &&
    b.endDateTime.isNone && b.endTimeZone.isNone &&
    b.recurrence.isNone && b.visibility.isNone && b.transparency.isNone &&
    b.guestsCanInviteOthers.isNone && b.guestsCanSeeOtherGuests.isNone

/-- A Google Calendar provider API invocation issued by the embedded
operations (the OAuth service bootstrap is an external collaborator
and is not traced). -/
inductive CalendarCall where
  | calendarsGet : String → CalendarCall
  | calendarsDelete : String → CalendarCall
  | calendarsClear : String → CalendarCall
  | eventsGet : String → String → CalendarCall
  | eventsInsert : String → InsertEventBody → String → CalendarCall
  | eventsPatch : String → String → PatchEventBody → Option String →
      CalendarCall
deriving DecidableEq

/-- Embedding of `create_event` from
`src/mcp_server/google_calendar/server.py`.  `tzSet` embeds membership
in `pytz.all_timezones_set` (the set of IANA timezone names, a library
constant passed as a parameter); `insertResp` is the opaque provider
response of `events().insert`, returned in the `event` field.  The
first component is `Except` because an exception raised by the body
would escape to the surrounding wrapper; the second is the trace of
issued provider calls. -/
def create_event (tzSet : String → Bool)
    (calendar_id summary start_time end_time : String)
    (time_zone : Option String) (description location : Option String)
    (add_google_meet_link : Option Bool)
    (attendees recurrence : Option (List String))
    (visibility : Option String)
    (guests_can_invite_others guests_can_see_other_guests : Option Bool)
    (transparency send_updates : Option String)
    (insertResp : String) :
    Except PyError ToolResult × List CalendarCall :=
  if !pyTruthy calendar_id || !pyTruthy (pyStrip calendar_id) then
    (.ok (errorResult "Calendar ID cannot be empty."), [])
  else if !pyTruthy summary || !pyTruthy (pyStrip summary) then
    (.ok (errorResult "Event summary cannot be empty."), [])
  else if pyTruthy start_time && !validate_rfc3339_timestamp start_time then
    (.ok (errorResult ("Invalid start_time format: '" ++ start_time ++
      "'. Expected RFC3339 format (e.g., 2023-10-01T12:00:00Z).")), [])
  else if pyTruthy end_time && !validate_rfc3339_timestamp end_time then
    (.ok (errorResult ("Invalid end_time format: '" ++ end_time ++
      "'. Expected RFC3339 format (e.g., 2023-10-01T12:00:00Z).")), [])
  else
    match is_rfc3339_start_time_before_end_time start_time end_time with
    | .error e => (.error e, [])
    | .ok ordered =>
        if !ordered then
          (.ok (errorResult "start_time must be before end_time."), [])
        else
          let tz0 :=
            pyStrip (if optTruthy time_zone then time_zone.getD "" else "UTC")
          let tz := if tzSet tz0 then tz0 else "UTC"
          let sendUpd :=
            if optTruthy send_updates then pyStrip (send_updates.getD "")
            else "none"
          let transp :=
            if optTruthy transparency then pyStrip (transparency.getD "")
            else "opaque"
          let vis :=
            if optTruthy visibility then pyStrip (visibility.getD "")
            else "default"
          let invalid_attendees :=
            (attendees.getD []).filter fun e => !is_valid_email (.pstr e)
          let valid_attendees :=
            (attendees.getD []).filter fun e => is_valid_email (.pstr e)
          let body : InsertEventBody :=
            { summary := pyStrip summary,
              location := location,
              startDateTime := start_time, startTimeZone := tz,
              endDateTime := end_time, endTimeZone := tz,
              visibility := vis,
              guestsCanInviteOthers := guests_can_invite_others,
              transparency := transp,
              guestsCanSeeOtherGuests := guests_can_see_other_guests,
              conferenceDataVersion := 1,
              description :=
                if optTruthy description then
                  some (pyStrip (description.getD ""))
                else none,
              recurrence :=
                if (recurrence.getD []).isEmpty then none else recurrence,
              attendees :=
                if valid_attendees.isEmpty then none else some valid_attendees,
              conferenceData := add_google_meet_link.getD false }
          let result : ToolResult :=
            { status := "success", event := some insertResp,
              warning :=
                if invalid_attendees.isEmpty then none
                else some ("Invalid attendee emails: " ++
                  joinComma invalid_attendees) }
          (.ok result, [.eventsInsert (pyStrip calendar_id) body sendUpd])

/-- The timezone resolution `update_event` performs for one of the two
time fields, against the timezone stored on the fetched event: a
caller timezone found in the IANA set wins; otherwise the stored
per-field timezone is used and the warning flag is set, unless the
stored value is blank, which is a hard error naming the field. -/
def resolveTz (tzSet : String → Bool) (time_zone : Option String)
    (fetchedTz fieldName : String) : Except ToolResult (String × Bool) :=
  if optTruthy time_zone && tzSet (pyStrip (time_zone.getD "")) then
    .ok (pyStrip (time_zone.getD ""), false)
  else if (pyStripList fetchedTz.data).length < 1 then
    .error (errorResult ("Invalid time_zone provided: " ++
      pyShowOpt time_zone ++ "." ++ "Default timezone for " ++ fieldName ++
      " could not be resolved."))
  else .ok (fetchedTz, true)

/-- Embedding of `update_event` from
`src/mcp_server/google_calendar/server.py`.  `fetchedStartTz` and
`fetchedEndTz` are `event["start"]["timeZone"]` and
`event["end"]["timeZone"]` of the `events().get` response (defaulted
to the empty string when absent); `patchResp` is the opaque
`events().patch` response.  Note the `events().get` call is issued
before the time-field validations run. -/
def update_event (tzSet : String → Bool) (calendar_id event_id : String)
    (summary description location start_time end_time time_zone :
      Option String)
    (recurrence : Option (List String))
    (visibility transparency : Option String)
    (guests_can_invite_others guests_can_see_other_guests : Option Bool)
    (send_updates : Option String)
    (fetchedStartTz fetchedEndTz : String) (patchResp : String) :
    ToolResult × List CalendarCall :=
  if !pyTruthy calendar_id || !pyTruthy (pyStrip calendar_id) then
    (errorResult "Calendar ID cannot be empty.", [])
  else if !pyTruthy event_id || !pyTruthy (pyStrip event_id) then
    (errorResult "Event ID cannot be empty.", [])
  else if summary.isSome && !pyTruthy (pyStrip (summary.getD "")) then
    (errorResult "Summary cannot be empty.", [])
  else
    let getCalls := [CalendarCall.eventsGet calendar_id event_id]
    if (optTruthy start_time && !optTruthy end_time) ||
        (optTruthy end_time && !optTruthy start_time) then
      (errorResult "Both start_time and end_time must be provided together.",
        getCalls)
    else
      let startRes : Except ToolResult (Option (String × String) × Bool) :=
        if optTruthy start_time then
          if !validate_rfc3339_timestamp (start_time.getD "") then
            .error (errorResult ("Invalid start_time format: '" ++
              start_time.getD "" ++
              "'. Expected RFC3339 format (e.g., 2023-10-01T12:00:00Z)."))
          else
            match resolveTz tzSet time_zone fetchedStartTz "start_time" with
            | .error r => .error r
            | .ok (tz, bad) => .ok (some (start_time.getD "", tz), bad)
        else .ok (none, false)
      match startRes with
      | .error r => (r, getCalls)
      | .ok (startField, badS) =>
          let endRes : Except ToolResult (Option (String × String) × Bool) :=
            if optTruthy end_time then
              if !validate_rfc3339_timestamp (end_time.getD "") then
                .error (errorResult ("Invalid end_time format: '" ++
                  end_time.getD "" ++
                  "'. Expected RFC3339 format (e.g., 2023-10-01T12:00:00Z)."))
              else
                match resolveTz tzSet time_zone fetchedEndTz "end_time" with
                | .error r => .error r
                | .ok (tz, bad) => .ok (some (end_time.getD "", tz), bad)
            else .ok (none, false)
          match endRes with
          | .error r => (r, getCalls)
          | .ok (endField, badE) =>
              let body : PatchEventBody :=
                { summary := summary,
                  description := description,
                  location := location,
                  startDateTime := startField.map Prod.fst,
                  startTimeZone := startField.map Prod.snd,
                  endDateTime := endField.map Prod.fst,
                  endTimeZone := endField.map Prod.snd,
                  recurrence :=
                    if (recurrence.getD []).isEmpty then none else recurrence,
                  visibility :=
                    if optTruthy visibility then visibility else none,
                  transparency :=
                    if optTruthy transparency then transparency else none,
                  guestsCanInviteOthers := guests_can_invite_others,
                  guestsCanSeeOtherGuests := guests_can_see_other_guests }
              if body.isEmptyBody then
                (errorResult "No fields provided to update the event.",
                  getCalls)
              else
                ({ status := "success", event := some patchResp,
                    warning :=
                      if badS || badE then
                        some ("Invalid time zone provided. " ++
                          "Defaulted to the event's original time zone.")
                      else none },
                  getCalls ++
                    [.eventsPatch (pyStrip calendar_id) (pyStrip event_id)
                      body send_updates])

/-- Embedding of `delete_calendar` from
`src/mcp_server/google_calendar/server.py`: the calendar metadata is
fetched live and a calendar flagged primary is rejected before any
`calendars().delete` is issued. -/
def delete_calendar (calendar_id : String) (fetched : CalendarMeta) :
    ToolResult × List CalendarCall :=
  if !pyTruthy calendar_id || !pyTruthy (pyStrip calendar_id) then
    (errorResult "Calendar ID cannot be empty.", [])
  else if fetched.primary then
    (errorResult "Cannot delete the user's primary calendar.",
      [.calendarsGet calendar_id])
  else
    ({ status := "success",
       message := some ("Calendar with ID '" ++ calendar_id ++
         "' deleted successfully.") },
      [.calendarsGet calendar_id, .calendarsDelete calendar_id])

/-- Embedding of `clear_primary_calendar` from
`src/mcp_server/google_calendar/server.py`: the calendar metadata is
fetched live and a calendar not flagged primary is rejected before any
`calendars().clear` is issued. -/
def clear_primary_calendar (calendar_id : String) (fetched : CalendarMeta) :
    ToolResult × List CalendarCall :=
  if !pyTruthy calendar_id || !pyTruthy (pyStrip calendar_id) then
    (errorResult "Calendar ID cannot be empty.", [])
  else if !fetched.primary then
    (errorResult ("Cannot clear secondary calendar. " ++
      "Only the primary calendar can be cleared."),
      [.calendarsGet calendar_id])
  else
    ({ status := "success",
       message := some ("All events from calendar " ++ calendar_id ++
         " have been cleared.") },
      [.calendarsGet calendar_id, .calendarsClear calendar_id])

end McpToolbox.GoogleCalendar

namespace McpToolbox.GoogleCalendar

/-- Following the words of the spec pattern: the optional fractional
part is either absent or a dot followed by at least one digit. -/
def FracShape (frac : List Char) : Prop :=
  frac = [] ∨ ∃ f, frac = '.' :: f ∧ f ≠ [] ∧ f.all isDig = true

/-- Following the words of the spec pattern: the mandatory offset is
`Z` or a sign followed by `HH:MM`. -/
def OffShape (off : List Char) : Prop :=
  off = ['Z'] ∨ ∃ (c : Char) (oh om : List Char),
    (c = '+' ∨ c = '-') ∧ off = c :: (oh ++ ':' :: om) ∧
    oh.length = 2 ∧ oh.all isDig = true ∧
    om.length = 2 ∧ om.all isDig = true

/-- Declarative statement of the spec pattern
`YYYY-MM-DDTHH:MM:SS(.ffffff)?(Z|±HH:MM)` (with the fractional part
read as one or more digits): the string decomposes into digit blocks
of the stated widths with the literal separators, an optional
fraction, and a mandatory offset. -/
def Rfc3339Shape (l : List Char) : Prop :=
  ∃ (y mo d h mi s frac off : List Char),
    l = y ++ '-' :: (mo ++ '-' :: (d ++ 'T' ::
      (h ++ ':' :: (mi ++ ':' :: (s ++ (frac ++ off)))))) ∧
    y.length = 4 ∧ y.all isDig = true ∧
    mo.length = 2 ∧ mo.all isDig = true ∧
    d.length = 2 ∧ d.all isDig = true ∧
    h.length = 2 ∧ h.all isDig = true ∧
    mi.length = 2 ∧ mi.all isDig = true ∧
    s.length = 2 ∧ s.all isDig = true ∧
    FracShape frac ∧ OffShape off

end McpToolbox.GoogleCalendar

namespace McpToolbox.GoogleCalendar

theorem expectChar_eq_some {c : Char} {l r : List Char} :
    expectChar c l = some r ↔ l = c :: r := by
  cases l with
  | nil => simp [expectChar]
  | cons d l =>
      by_cases h : d = c
      · subst h; simp [expectChar]
      · simp [expectChar, h]

theorem expectDigits_eq_some : ∀ {n : Nat} {l r : List Char},
    expectDigits n l = some r ↔
      ∃ d, l = d ++ r ∧ d.length = n ∧ d.all isDig = true := by
  intro n
  induction n with
  | zero =>
      intro l r
      constructor
      · intro h
        simp only [expectDigits, Option.some.injEq] at h
        exact ⟨[], by simp [h], rfl, rfl⟩
      · rintro ⟨d, rfl, hlen, -⟩
        have hd : d = [] := List.length_eq_zero.mp hlen
        subst hd
        simp [expectDigits]
  | succ n ih =>
      intro l r
      cases l with
      | nil =>
          simp only [expectDigits]
          constructor
          · intro h; cases h
          · rintro ⟨d, hd, hlen, -⟩
            have := congrArg List.length hd
            simp at this
            omega
      | cons c l =>
          by_cases h : isDig c
          · simp only [expectDigits, h, if_pos]
            rw [ih]
            constructor
            · rintro ⟨d, rfl, hlen, hdig⟩
              exact ⟨c :: d, rfl, by simp [hlen], by simp [h, hdig]⟩
            · rintro ⟨d, hd, hlen, hdig⟩
              cases d with
              | nil => simp at hlen
              | cons c2 d =>
                  simp only [List.cons_append, List.cons.injEq] at hd
                  obtain ⟨rfl, rfl⟩ := hd
                  simp only [List.all_cons, Bool.and_eq_true] at hdig
                  exact ⟨d, rfl, by simpa using hlen, hdig.2⟩
          · simp only [expectDigits, h, if_neg, Bool.false_eq_true,
              not_false_eq_true]
            constructor
            · intro hc; cases hc
            · rintro ⟨d, hd, hlen, hdig⟩
              cases d with
              | nil => simp at hlen
              | cons c2 d =>
                  simp only [List.cons_append, List.cons.injEq] at hd
                  obtain ⟨rfl, rfl⟩ := hd
                  simp only [List.all_cons, Bool.and_eq_true] at hdig
                  exact absurd hdig.1 (by simp [h])

theorem takeWhile_all_eq (p : Char → Bool) :
    ∀ (l : List Char), (l.takeWhile p).all p = true := by
  intro l
  induction l with
  | nil => simp
  | cons a l ih =>
      by_cases h : p a
      · simp [List.takeWhile_cons, h, ih]
      · simp [List.takeWhile_cons, h]

theorem takeWhile_append_all {p : Char → Bool} :
    ∀ {f : List Char} {c : Char} {r : List Char},
      f.all p = true → p c = false →
      (f ++ c :: r).takeWhile p = f ∧ (f ++ c :: r).dropWhile p = c :: r := by
  intro f
  induction f with
  | nil =>
      intro c r _ hc
      simp [List.takeWhile_cons, List.dropWhile_cons, hc]
  | cons a f ih =>
      intro c r hf hc
      simp only [List.all_cons, Bool.and_eq_true] at hf
      obtain ⟨ha, hf⟩ := hf
      obtain ⟨h1, h2⟩ := ih (c := c) (r := r) hf hc
      simp [List.takeWhile_cons, List.dropWhile_cons, ha, h1, h2]

theorem OffShape_head {off : List Char} (h : OffShape off) :
    ∃ z rest, off = z :: rest ∧ isDig z = false ∧ z ≠ '.' := by
  rcases h with rfl | ⟨c, oh, om, hc, rfl, -, -, -, -⟩
  · exact ⟨'Z', [], rfl, by decide, by decide⟩
  · rcases hc with rfl | rfl
    · exact ⟨'+', oh ++ ':' :: om, rfl, by decide, by decide⟩
    · exact ⟨'-', oh ++ ':' :: om, rfl, by decide, by decide⟩

theorem scanFrac_append {frac off : List Char}
    (hf : FracShape frac) (ho : OffShape off) :
    scanFrac (frac ++ off) = some off := by
  obtain ⟨z, rest, rfl, hz, hzd⟩ := OffShape_head ho
  rcases hf with rfl | ⟨f, rfl, hne, hdig⟩
  · simp [scanFrac, hzd]
  · obtain ⟨h1, h2⟩ :=
      takeWhile_append_all (p := isDig) (c := z) (r := rest) hdig hz
    have hfe : f.isEmpty = false := by
      cases f with
      | nil => exact absurd rfl hne
      | cons a l => rfl
    show scanFrac ('.' :: (f ++ z :: rest)) = some (z :: rest)
    simp [scanFrac, h1, h2, hfe]

theorem scanFrac_inv {l r : List Char} (h : scanFrac l = some r) :
    ∃ frac, l = frac ++ r ∧ FracShape frac := by
  cases l with
  | nil =>
      simp only [scanFrac, Option.some.injEq] at h
      exact ⟨[], by simp [h], Or.inl rfl⟩
  | cons c l =>
      by_cases hc : c = '.'
      · subst hc
        simp only [scanFrac, if_pos] at h
        by_cases he : (l.takeWhile isDig).isEmpty
        · simp [he] at h
        · simp only [he, if_neg, Bool.false_eq_true, not_false_eq_true,
            Option.some.injEq] at h
          refine ⟨'.' :: l.takeWhile isDig, ?_, Or.inr
            ⟨l.takeWhile isDig, rfl, by simpa using he, takeWhile_all_eq _ _⟩⟩
          simp [← h, List.takeWhile_append_dropWhile]
      · simp only [scanFrac, hc, if_neg, not_false_eq_true,
          Option.some.injEq] at h
        exact ⟨[], by simp [h], Or.inl rfl⟩

theorem scanOffset_eq_some_nil {off : List Char} :
    scanOffset off = some [] ↔ OffShape off := by
  constructor
  · intro h
    cases off with
    | nil => simp [scanOffset] at h
    | cons c rest =>
        by_cases hz : c = 'Z'
        · subst hz
          simp only [scanOffset, if_pos, Option.some.injEq] at h
          exact Or.inl (by simp [h])
        · by_cases hpm : (c = '+' || c = '-') = true
          · simp only [scanOffset, hz, if_neg, not_false_eq_true, hpm,
              if_pos] at h
            rw [Option.bind_eq_some] at h
            obtain ⟨l1, h1, h⟩ := h
            rw [Option.bind_eq_some] at h
            obtain ⟨l2, h2, h3⟩ := h
            obtain ⟨oh, rfl, hoh1, hoh2⟩ := expectDigits_eq_some.mp h1
            have hl2 := expectChar_eq_some.mp h2
            obtain ⟨om, hom, hom1, hom2⟩ := expectDigits_eq_some.mp h3
            refine Or.inr ⟨c, oh, om, by simpa using hpm, ?_, hoh1, hoh2,
              hom1, hom2⟩
            rw [hl2, hom]
            simp
          · simp [scanOffset, hz, hpm] at h
  · rintro (rfl | ⟨c, oh, om, hc, rfl, h1, h2, h3, h4⟩)
    · simp [scanOffset]
    · have hz : ¬ c = 'Z' := by rcases hc with rfl | rfl <;> decide
      have hpm : (c = '+' || c = '-') = true := by
        rcases hc with rfl | rfl <;> decide
      simp only [scanOffset, hz, if_neg, not_false_eq_true, hpm, if_pos]
      rw [expectDigits_eq_some.mpr ⟨oh, rfl, h1, h2⟩]
      simp only [Option.some_bind]
      rw [expectChar_eq_some.mpr rfl]
      simp only [Option.some_bind]
      exact expectDigits_eq_some.mpr ⟨om, by simp, h3, h4⟩

end McpToolbox.GoogleCalendar

namespace McpToolbox.GoogleCalendar

theorem rfc3339Scan_eq_some_nil {l : List Char} :
    rfc3339Scan l = some [] ↔ Rfc3339Shape l := by
  constructor
  · intro hscan
    unfold rfc3339Scan at hscan
    rw [Option.bind_eq_some] at hscan
    obtain ⟨l1, h1, hscan⟩ := hscan
    rw [Option.bind_eq_some] at hscan
    obtain ⟨l2, h2, hscan⟩ := hscan
    rw [Option.bind_eq_some] at hscan
    obtain ⟨l3, h3, hscan⟩ := hscan
    rw [Option.bind_eq_some] at hscan
    obtain ⟨l4, h4, hscan⟩ := hscan
    rw [Option.bind_eq_some] at hscan
    obtain ⟨l5, h5, hscan⟩ := hscan
    rw [Option.bind_eq_some] at hscan
    obtain ⟨l6, h6, hscan⟩ := hscan
    rw [Option.bind_eq_some] at hscan
    obtain ⟨l7, h7, hscan⟩ := hscan
    rw [Option.bind_eq_some] at hscan
    obtain ⟨l8, h8, hscan⟩ := hscan
    rw [Option.bind_eq_some] at hscan
    obtain ⟨l9, h9, hscan⟩ := hscan
    rw [Option.bind_eq_some] at hscan
    obtain ⟨l10, h10, hscan⟩ := hscan
    rw [Option.bind_eq_some] at hscan
    obtain ⟨l11, h11, hscan⟩ := hscan
    rw [Option.bind_eq_some] at hscan
    obtain ⟨l12, h12, hoff⟩ := hscan
    obtain ⟨y, rfl, hy1, hy2⟩ := expectDigits_eq_some.mp h1
    have e2 := expectChar_eq_some.mp h2
    subst e2
    obtain ⟨mo, rfl, hmo1, hmo2⟩ := expectDigits_eq_some.mp h3
    have e4 := expectChar_eq_some.mp h4
    subst e4
    obtain ⟨d, rfl, hd1, hd2⟩ := expectDigits_eq_some.mp h5
    have e6 := expectChar_eq_some.mp h6
    subst e6
    obtain ⟨hB, rfl, hh1, hh2⟩ := expectDigits_eq_some.mp h7
    have e8 := expectChar_eq_some.mp h8
    subst e8
    obtain ⟨mi, rfl, hmi1, hmi2⟩ := expectDigits_eq_some.mp h9
    have e10 := expectChar_eq_some.mp h10
    subst e10
    obtain ⟨s, rfl, hs1, hs2⟩ := expectDigits_eq_some.mp h11
    obtain ⟨frac, rfl, hfrac⟩ := scanFrac_inv h12
    exact ⟨y, mo, d, hB, mi, s, frac, l12, rfl, hy1, hy2, hmo1, hmo2,
      hd1, hd2, hh1, hh2, hmi1, hmi2, hs1, hs2, hfrac,
      scanOffset_eq_some_nil.mp hoff⟩
  · rintro ⟨y, mo, d, hB, mi, s, frac, off, rfl, hy1, hy2, hmo1, hmo2,
      hd1, hd2, hh1, hh2, hmi1, hmi2, hs1, hs2, hfrac, hoff⟩
    unfold rfc3339Scan
    rw [expectDigits_eq_some.mpr ⟨y, rfl, hy1, hy2⟩]
    simp only [Option.some_bind]
    rw [expectChar_eq_some.mpr rfl]
    simp only [Option.some_bind]
    rw [expectDigits_eq_some.mpr ⟨mo, rfl, hmo1, hmo2⟩]
    simp only [Option.some_bind]
    rw [expectChar_eq_some.mpr rfl]
    simp only [Option.some_bind]
    rw [expectDigits_eq_some.mpr ⟨d, rfl, hd1, hd2⟩]
    simp only [Option.some_bind]
    rw [expectChar_eq_some.mpr rfl]
    simp only [Option.some_bind]
    rw [expectDigits_eq_some.mpr ⟨hB, rfl, hh1, hh2⟩]
    simp only [Option.some_bind]
    rw [expectChar_eq_some.mpr rfl]
    simp only [Option.some_bind]
    rw [expectDigits_eq_some.mpr ⟨mi, rfl, hmi1, hmi2⟩]
    simp only [Option.some_bind]
    rw [expectChar_eq_some.mpr rfl]
    simp only [Option.some_bind]
    rw [expectDigits_eq_some.mpr ⟨s, rfl, hs1, hs2⟩]
    simp only [Option.some_bind]
    rw [scanFrac_append hfrac hoff]
    simp only [Option.some_bind]
    exact scanOffset_eq_some_nil.mpr hoff

theorem rfc3339Core_iff_shape {l : List Char} :
    rfc3339Core l = true ↔ Rfc3339Shape l := by
  rw [← rfc3339Scan_eq_some_nil]
  unfold rfc3339Core
  cases hs : rfc3339Scan l with
  | none => simp
  | some r =>
      cases r with
      | nil => simp
      | cons a r => simp

end McpToolbox.GoogleCalendar

namespace McpToolbox

theorem pyTruthy_of_pyStrip {s : String} (h : pyTruthy (pyStrip s) = true) :
    pyTruthy s = true := by
  cases hs : s.data with
  | nil =>
      exfalso
      unfold pyTruthy pyStrip pyStripList at h
      rw [hs] at h
      simp at h
  | cons c l =>
      unfold pyTruthy
      rw [hs]
      rfl

theorem splitCommaWsAux_ne_nil :
    ∀ (l acc : List Char) (b : Bool), splitCommaWsAux l acc b ≠ [] := by
  intro l
  induction l with
  | nil => intro acc b; simp [splitCommaWsAux]
  | cons c rest ih =>
      intro acc b
      unfold splitCommaWsAux
      by_cases h1 : (b && pyIsSpace c) = true
      · simpa [h1] using ih acc true
      · by_cases h2 : c = ','
        · subst h2
          have hsp : pyIsSpace ',' = false := rfl
          simp [hsp]
        · simpa [h1, h2] using ih (c :: acc) false

theorem pySplitCommaWs_ne_nil (s : String) : pySplitCommaWs s ≠ [] := by
  unfold pySplitCommaWs
  intro h
  exact splitCommaWsAux_ne_nil s.data [] false (by simpa using h)

theorem erase_append_singleton_toFinset (l : List String) (a : String) :
    ((l ++ [a]).erase a).toFinset = l.toFinset := by
  induction l with
  | nil => simp
  | cons b l ih =>
      by_cases h : b = a
      · subst h
        rw [List.cons_append, List.erase_cons_head]
        ext x
        simp [List.mem_toFinset]
        constructor
        · rintro (hx | rfl)
          · exact Or.inr hx
          · exact Or.inl rfl
        · rintro (rfl | hx)
          · exact Or.inr rfl
          · exact Or.inl hx
      · rw [List.cons_append, List.erase_cons_tail (by simpa using h)]
        simp only [List.toFinset_cons, ih]

end McpToolbox

namespace McpToolbox

/-- Claim C10: on every string input the Gmail copy of
`is_valid_email` and the Calendar copy return the same boolean (the
two duplicated validators are observationally equivalent on strings,
their patterns being textually identical), and the Calendar copy
additionally maps every non-string input to false via its
`isinstance` guard. -/
theorem c10_email_validators_equivalent (s : String) :
    Gmail.is_valid_email s = GoogleCalendar.is_valid_email (.pstr s) ∧
    GoogleCalendar.is_valid_email .nonString = false :=
  ⟨congrArg (fun r => pyFullMatch r s)
    (rfl : Gmail.EMAIL_REGEX = GoogleCalendar.EMAIL_REGEX), rfl⟩

/-- Claim C1: both exception wrappers pass a normal result through
unchanged, map a provider `HttpError` to an error envelope through
their fixed status-code message table (with the generic reason-bearing
message for any unlisted status), map any other exception to the
generic unexpected-error envelope, and — being total functions into
the envelope type — never let an exception propagate. -/
theorem c1_exception_wrapper (v : ToolResult) (s : Nat)
    (reason cause : String) :
    Gmail.handle_gmail_exceptions (.ok v) = v ∧
    GoogleCalendar.handle_google_calendar_exceptions (.ok v) = v ∧
    Gmail.handle_gmail_exceptions (.error (.generic cause)) =
      errorResult ("An unexpected error occurred: " ++ cause) ∧
    GoogleCalendar.handle_google_calendar_exceptions
        (.error (.generic cause)) =
      errorResult ("An unexpected error occurred: " ++ cause) ∧
    Gmail.handle_gmail_exceptions (.error (.http s reason)) =
      errorResult (Gmail.httpErrorMessage s reason) ∧
    GoogleCalendar.handle_google_calendar_exceptions
        (.error (.http s reason)) =
      errorResult (GoogleCalendar.httpErrorMessage s reason) ∧
    (Gmail.handle_gmail_exceptions (.error (.http s reason))).status =
      "error" ∧
    (GoogleCalendar.handle_google_calendar_exceptions
        (.error (.http s reason))).status = "error" ∧
    (s ≠ 400 → s ≠ 401 → s ≠ 403 → s ≠ 404 → s ≠ 409 → s ≠ 410 →
      s ≠ 412 → s ≠ 429 → s ≠ 500 → s ≠ 503 →
      Gmail.httpErrorMessage s reason =
        "Unexpected error with Gmail API: " ++ reason ∧
      GoogleCalendar.httpErrorMessage s reason =
        "Unexpected error with the Calendar API: " ++ reason) := by
  refine ⟨rfl, rfl, rfl, rfl, rfl, rfl, rfl, rfl, ?_⟩
  intro h400 h401 h403 h404 h409 h410 h412 h429 h500 h503
  constructor
  · simp [Gmail.httpErrorMessage, h400, h401, h403, h404, h409, h410,
      h412, h429, h500, h503]
  · simp [GoogleCalendar.httpErrorMessage, h400, h401, h403, h404, h409,
      h410, h412, h429, h500, h503]

/-- Witness for C1 at status 418 with a concrete reason. -/
theorem c1_exception_wrapper_witness :
    Gmail.httpErrorMessage 418 "teapot" =
      "Unexpected error with Gmail API: " ++ "teapot" ∧
    GoogleCalendar.httpErrorMessage 418 "teapot" =
      "Unexpected error with the Calendar API: " ++ "teapot" :=
  (c1_exception_wrapper (errorResult "m") 418 "teapot"
    "c").2.2.2.2.2.2.2.2 (by decide) (by decide) (by decide) (by decide)
    (by decide) (by decide) (by decide) (by decide) (by decide) (by decide)

/-- Counterexample for C8: CPython `$` also matches just before a
trailing newline, so a timestamp followed by a newline — a string
deviating from the spec pattern — is accepted by
`validate_rfc3339_timestamp`. -/
theorem c8_counterexample :
    GoogleCalendar.validate_rfc3339_timestamp "2023-10-01T12:00:00Z\n" =
      true ∧
    ¬ GoogleCalendar.Rfc3339Shape "2023-10-01T12:00:00Z\n".data :=
  ⟨by decide, fun h =>
    absurd (GoogleCalendar.rfc3339Core_iff_shape.mpr h) (by decide)⟩

/-- Claim C8 as amended: `validate_rfc3339_timestamp` returns true
exactly for the strings matching
`YYYY-MM-DDTHH:MM:SS(.f+)?(Z|±HH:MM)` — with the fractional part any
positive number of digits — optionally followed by one trailing
newline (the CPython semantics of `$` under `re.match`); it returns
false for every other string. -/
theorem c8_validate_rfc3339 (s : String) :
    GoogleCalendar.validate_rfc3339_timestamp s = true ↔
      (GoogleCalendar.Rfc3339Shape s.data ∨
        (s.data.getLast? = some '\n' ∧
          GoogleCalendar.Rfc3339Shape s.data.dropLast)) := by
  unfold GoogleCalendar.validate_rfc3339_timestamp
  simp [GoogleCalendar.rfc3339Core_iff_shape]

end McpToolbox

namespace McpToolbox

/-- Claim C6: with a non-blank calendar id, `delete_calendar` on
freshly fetched metadata flagged primary, and `clear_primary_calendar`
on metadata not flagged primary, return an error envelope explaining
the restriction after only the metadata fetch — the destructive
delete/clear call is never issued. -/
theorem c6_primary_calendar_guard (cid : String)
    (meta : GoogleCalendar.CalendarMeta)
    (h : pyTruthy (pyStrip cid) = true) :
    (meta.primary = true →
      GoogleCalendar.delete_calendar cid meta =
        (errorResult "Cannot delete the user's primary calendar.",
          [GoogleCalendar.CalendarCall.calendarsGet cid]) ∧
      GoogleCalendar.CalendarCall.calendarsDelete cid ∉
        (GoogleCalendar.delete_calendar cid meta).2) ∧
    (meta.primary = false →
      GoogleCalendar.clear_primary_calendar cid meta =
        (errorResult ("Cannot clear secondary calendar. " ++
          "Only the primary calendar can be cleared."),
          [GoogleCalendar.CalendarCall.calendarsGet cid]) ∧
      GoogleCalendar.CalendarCall.calendarsClear cid ∉
        (GoogleCalendar.clear_primary_calendar cid meta).2) := by
  have h1 : pyTruthy cid = true := pyTruthy_of_pyStrip h
  constructor
  · intro hp
    unfold GoogleCalendar.delete_calendar
    simp [h1, h, hp]
  · intro hp
    unfold GoogleCalendar.clear_primary_calendar
    simp [h1, h, hp]

/-- Witness for C6 at concrete calendars. -/
theorem c6_primary_calendar_guard_witness :
    GoogleCalendar.delete_calendar "cal-1" ⟨true⟩ =
      (errorResult "Cannot delete the user's primary calendar.",
        [GoogleCalendar.CalendarCall.calendarsGet "cal-1"]) ∧
    GoogleCalendar.clear_primary_calendar "cal-2" ⟨false⟩ =
      (errorResult ("Cannot clear secondary calendar. " ++
        "Only the primary calendar can be cleared."),
        [GoogleCalendar.CalendarCall.calendarsGet "cal-2"]) :=
  ⟨((c6_primary_calendar_guard "cal-1" ⟨true⟩ (by decide)).1 rfl).1,
    ((c6_primary_calendar_guard "cal-2" ⟨false⟩ (by decide)).2 rfl).1⟩

/-- Counterexample for C7: a `create_event` call with a timezone
outside the (parameterised) IANA set still creates the event with
timezone UTC, but the success result carries no warning field at all
— contrary to the claim that a warning reports the invalid
timezone. -/
theorem c7_counterexample :
    (fun s => s == "UTC") "Invalid/Zone" = false ∧
    GoogleCalendar.create_event (fun s => s == "UTC") "c1" "Team Sync"
      "2025-01-01T09:00:00Z" "2025-01-01T10:00:00Z" (some "Invalid/Zone")
      none none none none none none none none none none "evt-1" =
      (.ok { status := "success", event := some "evt-1" },
        [GoogleCalendar.CalendarCall.eventsInsert "c1"
          { summary := "Team Sync", location := none,
            startDateTime := "2025-01-01T09:00:00Z",
            startTimeZone := "UTC",
            endDateTime := "2025-01-01T10:00:00Z", endTimeZone := "UTC",
            visibility := "default", guestsCanInviteOthers := none,
            transparency := "opaque", guestsCanSeeOtherGuests := none,
            conferenceDataVersion := 1 }
          "none"]) := by
  decide

end McpToolbox

namespace McpToolbox

/-- Claim C7 as amended: in `create_event` an invalid timezone falls
back to UTC silently — the success result carries no warning for it
(the create-side warning reports only invalid attendees); an absent
timezone likewise yields UTC with no warning.  The invalid-timezone
warning exists only in `update_event`, which falls back to the
stored per-field timezones of the fetched event and then flags the
fallback in a warning. -/
theorem c7_timezone_fallback :
    (∀ (tzSet : String → Bool) (cal sum st et : String)
      (tz desc loc : Option String) (meet : Option Bool)
      (rec : Option (List String)) (vis : Option String)
      (gio gso : Option Bool) (transp su : Option String) (resp : String),
      pyTruthy (pyStrip cal) = true →
      pyTruthy (pyStrip sum) = true →
      GoogleCalendar.validate_rfc3339_timestamp st = true →
      GoogleCalendar.validate_rfc3339_timestamp et = true →
      GoogleCalendar.is_rfc3339_start_time_before_end_time st et =
        .ok true →
      tzSet (pyStrip (if optTruthy tz then tz.getD "" else "UTC")) =
        false →
      GoogleCalendar.create_event tzSet cal sum st et tz desc loc meet
          none rec vis gio gso transp su resp =
        (.ok { status := "success", event := some resp },
          [GoogleCalendar.CalendarCall.eventsInsert (pyStrip cal)
            { summary := pyStrip sum, location := loc,
              startDateTime := st, startTimeZone := "UTC",
              endDateTime := et, endTimeZone := "UTC",
              visibility :=
                if optTruthy vis then pyStrip (vis.getD "")
                else "default",
              guestsCanInviteOthers := gio,
              transparency :=
                if optTruthy transp then pyStrip (transp.getD "")
                else "opaque",
              guestsCanSeeOtherGuests := gso,
              conferenceDataVersion := 1,
              description :=
                if optTruthy desc then some (pyStrip (desc.getD ""))
                else none,
              recurrence :=
                if (rec.getD []).isEmpty then none else rec,
              attendees := none,
              conferenceData := meet.getD false }
            (if optTruthy su then pyStrip (su.getD "") else "none")])) ∧
    (∀ (tzSet : String → Bool) (cal ev st et : String)
      (tz su : Option String) (fst fet resp : String),
      pyTruthy (pyStrip cal) = true →
      pyTruthy (pyStrip ev) = true →
      pyTruthy st = true → pyTruthy et = true →
      GoogleCalendar.validate_rfc3339_timestamp st = true →
      GoogleCalendar.validate_rfc3339_timestamp et = true →
      (optTruthy tz && tzSet (pyStrip (tz.getD ""))) = false →
      pyTruthy (pyStrip fst) = true →
      pyTruthy (pyStrip fet) = true →
      ∃ body : GoogleCalendar.PatchEventBody,
        GoogleCalendar.update_event tzSet cal ev none none none
            (some st) (some et) tz none none none none none su fst fet
            resp =
          ({ status := "success", event := some resp,
             warning := some ("Invalid time zone provided. " ++
               "Defaulted to the event's original time zone.") },
            [GoogleCalendar.CalendarCall.eventsGet cal ev,
              GoogleCalendar.CalendarCall.eventsPatch (pyStrip cal)
                (pyStrip ev) body su]) ∧
        body.startTimeZone = some fst ∧ body.endTimeZone = some fet) := by
  constructor
  · intro tzSet cal sum st et tz desc loc meet rec vis gio gso transp su
      resp hc hs hst het hord htz
    have h1 := pyTruthy_of_pyStrip hc
    have h2 := pyTruthy_of_pyStrip hs
    unfold GoogleCalendar.create_event
    rw [hord]
    simp [h1, hc, h2, hs, hst, het, htz]
  · intro tzSet cal ev st et tz su fst fet resp hc he hst het hvs hve htz
      hfs hfe
    have h1 := pyTruthy_of_pyStrip hc
    have h2 := pyTruthy_of_pyStrip he
    have hfs1 : ((pyStripList fst.data).length < 1) = False := by
      unfold pyTruthy at hfs
      unfold pyStrip at hfs
      simp only [eq_iff_iff, iff_false, not_lt]
      cases hq : pyStripList fst.data with
      | nil => rw [hq] at hfs; simp at hfs
      | cons a l => simp
    have hfe1 : ((pyStripList fet.data).length < 1) = False := by
      unfold pyTruthy at hfe
      unfold pyStrip at hfe
      simp only [eq_iff_iff, iff_false, not_lt]
      cases hq : pyStripList fet.data with
      | nil => rw [hq] at hfe; simp at hfe
      | cons a l => simp
    unfold GoogleCalendar.update_event GoogleCalendar.resolveTz
    refine ⟨{ startDateTime := some st
              startTimeZone := some fst
              endDateTime := some et
              endTimeZone := some fet }, ?_, rfl, rfl⟩
    simp [h1, hc, h2, he, hst, het, hvs, hve, htz, hfs1, hfe1,
      GoogleCalendar.PatchEventBody.isEmptyBody]
    simp [optTruthy, hst, het]

end McpToolbox

namespace McpToolbox

theorem trash_message_cases (u m : String) :
    ((Gmail.trash_message u m).1.status = "error" ∧
      (Gmail.trash_message u m).2 = []) ∨
    (Gmail.trash_message u m).1.status = "success" := by
  unfold Gmail.trash_message
  repeat' first
    | exact Or.inl ⟨rfl, rfl⟩
    | exact Or.inr rfl
    | split

set_option maxHeartbeats 2000000 in
theorem send_message_cases (u «to» body : String)
    (subject cc bcc tid irt rid : Option String) :
    ((Gmail.send_message u «to» body subject cc bcc tid irt rid).1.status =
        "error" ∧
      (Gmail.send_message u «to» body subject cc bcc tid irt rid).2 = []) ∨
    (Gmail.send_message u «to» body subject cc bcc tid irt rid).1.status =
      "success" := by
  simp only [Gmail.send_message]
  by_cases h1 : (!pyTruthy u || !pyTruthy (pyStrip u)) = true
  · rw [if_pos h1]; exact Or.inl ⟨rfl, rfl⟩
  rw [if_neg h1]
  by_cases h2 : (decide (u ≠ "me") && !Gmail.is_valid_email u) = true
  · rw [if_pos h2]; exact Or.inl ⟨rfl, rfl⟩
  rw [if_neg h2]
  by_cases h3 : (!pyTruthy «to» || !pyTruthy (pyStrip «to»)) = true
  · rw [if_pos h3]; exact Or.inl ⟨rfl, rfl⟩
  rw [if_neg h3]
  rcases hf : List.find? (fun e => !Gmail.is_valid_email (pyStrip e))
      (pySplitCommaWs (removeBrackets «to»)) with _ | e
  · exact Or.inr rfl
  · exact Or.inl ⟨rfl, rfl⟩

theorem create_draft_cases (u : String)
    («to» body subject cc bcc tid irt rid : Option String) :
    ((Gmail.create_draft u «to» body subject cc bcc tid irt rid).1.status =
        "error" ∧
      (Gmail.create_draft u «to» body subject cc bcc tid irt rid).2 = []) ∨
    (Gmail.create_draft u «to» body subject cc bcc tid irt rid).1.status =
      "success" := by
  simp only [Gmail.create_draft]
  by_cases h1 : (!pyTruthy u || !pyTruthy (pyStrip u)) = true
  · rw [if_pos h1]; exact Or.inl ⟨rfl, rfl⟩
  rw [if_neg h1]
  by_cases h2 : (decide (u ≠ "me") && !Gmail.is_valid_email u) = true
  · rw [if_pos h2]; exact Or.inl ⟨rfl, rfl⟩
  rw [if_neg h2]
  repeat' first
    | exact Or.inl ⟨rfl, rfl⟩
    | exact Or.inr rfl
    | split

set_option maxHeartbeats 2000000 in
theorem update_draft_cases (u d : String) (body subject : Option String)
    (a_t r_t a_c r_c a_b r_b : Option (List String))
    (existing : Gmail.DraftMessagePayload) (rid : String) :
    ((Gmail.update_draft u d body subject a_t r_t a_c r_c a_b r_b existing
        rid).1.status = "error" ∧
      (Gmail.update_draft u d body subject a_t r_t a_c r_c a_b r_b existing
        rid).2 = []) ∨
    (Gmail.update_draft u d body subject a_t r_t a_c r_c a_b r_b existing
      rid).1.status = "success" := by
  unfold Gmail.update_draft
  repeat' first
    | exact Or.inl ⟨rfl, rfl⟩
    | exact Or.inr rfl
    | split

theorem create_event_cases (tzSet : String → Bool)
    (cal sum st et : String) (tz desc loc : Option String)
    (meet : Option Bool) (att rec : Option (List String))
    (vis : Option String) (gio gso : Option Bool)
    (transp su : Option String) (resp : String) :
    (∃ r, (GoogleCalendar.create_event tzSet cal sum st et tz desc loc meet
        att rec vis gio gso transp su resp).1 = .ok r ∧
      r.status = "error" ∧
      (GoogleCalendar.create_event tzSet cal sum st et tz desc loc meet att
        rec vis gio gso transp su resp).2 = []) ∨
    (∃ e, (GoogleCalendar.create_event tzSet cal sum st et tz desc loc meet
        att rec vis gio gso transp su resp).1 = .error e ∧
      (GoogleCalendar.create_event tzSet cal sum st et tz desc loc meet att
        rec vis gio gso transp su resp).2 = []) ∨
    (∃ r, (GoogleCalendar.create_event tzSet cal sum st et tz desc loc meet
        att rec vis gio gso transp su resp).1 = .ok r ∧
      r.status = "success") := by
  unfold GoogleCalendar.create_event
  by_cases h1 : (!pyTruthy cal || !pyTruthy (pyStrip cal)) = true
  · rw [if_pos h1]; exact Or.inl ⟨_, rfl, rfl, rfl⟩
  rw [if_neg h1]
  by_cases h2 : (!pyTruthy sum || !pyTruthy (pyStrip sum)) = true
  · rw [if_pos h2]; exact Or.inl ⟨_, rfl, rfl, rfl⟩
  rw [if_neg h2]
  by_cases h3 : (pyTruthy st &&
      !GoogleCalendar.validate_rfc3339_timestamp st) = true
  · rw [if_pos h3]; exact Or.inl ⟨_, rfl, rfl, rfl⟩
  rw [if_neg h3]
  by_cases h4 : (pyTruthy et &&
      !GoogleCalendar.validate_rfc3339_timestamp et) = true
  · rw [if_pos h4]; exact Or.inl ⟨_, rfl, rfl, rfl⟩
  rw [if_neg h4]
  rcases ho : GoogleCalendar.is_rfc3339_start_time_before_end_time st et
    with e | b
  · exact Or.inr (Or.inl ⟨_, rfl, rfl⟩)
  · cases b
    · exact Or.inl ⟨_, rfl, rfl, rfl⟩
    · exact Or.inr (Or.inr ⟨_, rfl, rfl⟩)

theorem update_event_cases (tzSet : String → Bool) (cal ev : String)
    (sum desc loc st et tz : Option String)
    (rec : Option (List String)) (vis transp : Option String)
    (gio gso : Option Bool) (su : Option String)
    (fst fet resp : String) :
    (GoogleCalendar.update_event tzSet cal ev sum desc loc st et tz rec vis
      transp gio gso su fst fet resp).2 = [] ∨
    (GoogleCalendar.update_event tzSet cal ev sum desc loc st et tz rec vis
      transp gio gso su fst fet resp).2 =
      [GoogleCalendar.CalendarCall.eventsGet cal ev] ∨
    (GoogleCalendar.update_event tzSet cal ev sum desc loc st et tz rec vis
      transp gio gso su fst fet resp).1.status = "success" := by
  simp only [GoogleCalendar.update_event]
  by_cases h1 : (!pyTruthy cal || !pyTruthy (pyStrip cal)) = true
  · rw [if_pos h1]; exact Or.inl rfl
  rw [if_neg h1]
  by_cases h2 : (!pyTruthy ev || !pyTruthy (pyStrip ev)) = true
  · rw [if_pos h2]; exact Or.inl rfl
  rw [if_neg h2]
  by_cases h3 : (sum.isSome && !pyTruthy (pyStrip (sum.getD ""))) = true
  · rw [if_pos h3]; exact Or.inl rfl
  rw [if_neg h3]
  by_cases h4 : (optTruthy st && !optTruthy et ||
      optTruthy et && !optTruthy st) = true
  · rw [if_pos h4]; exact Or.inr (Or.inl rfl)
  rw [if_neg h4]
  repeat' first
    | exact Or.inl rfl
    | exact Or.inr (Or.inl rfl)
    | exact Or.inr (Or.inr rfl)
    | split

end McpToolbox

namespace McpToolbox

/-- Counterexample for C2: `update_event` with only `start_time`
supplied fails local validation ("Both start_time and end_time must be
provided together.") yet a provider call — the read-only `events().get`
— has already been issued by then, contrary to the claim that no
provider API call is issued on a locally detected input error. -/
theorem c2_counterexample :
    GoogleCalendar.update_event (fun _ => false) "c1" "e1" none none none
        (some "2025-01-01T10:00:00Z") none none none none none none none
        none "UTC" "UTC" "resp" =
      (errorResult "Both start_time and end_time must be provided together.",
        [GoogleCalendar.CalendarCall.eventsGet "c1" "e1"]) ∧
    [GoogleCalendar.CalendarCall.eventsGet "c1" "e1"] ≠
      ([] : List GoogleCalendar.CalendarCall) := by
  decide

/-- Claim C2 as amended: every locally detected invalid input returns
an error envelope; in `trash_message`, `send_message`, `create_draft`,
`update_draft` and `create_event` no provider call has been issued by
then, while in `update_event` the time-field validations run after the
read-only `events().get`, so an error outcome there has issued at most
that fetch — a mutating provider call is never issued on a validation
failure. -/
theorem c2_validation_no_provider_call :
    (∀ u m, (Gmail.trash_message u m).1.status = "error" →
      (Gmail.trash_message u m).2 = []) ∧
    (∀ (u «to» body : String) (subject cc bcc tid irt rid : Option String),
      (Gmail.send_message u «to» body subject cc bcc tid irt
        rid).1.status = "error" →
      (Gmail.send_message u «to» body subject cc bcc tid irt rid).2 = []) ∧
    (∀ (u : String) («to» body subject cc bcc tid irt rid : Option String),
      (Gmail.create_draft u «to» body subject cc bcc tid irt
        rid).1.status = "error" →
      (Gmail.create_draft u «to» body subject cc bcc tid irt rid).2 = []) ∧
    (∀ (u d : String) (body subject : Option String)
      (a_t r_t a_c r_c a_b r_b : Option (List String))
      (existing : Gmail.DraftMessagePayload) (rid : String),
      (Gmail.update_draft u d body subject a_t r_t a_c r_c a_b r_b
        existing rid).1.status = "error" →
      (Gmail.update_draft u d body subject a_t r_t a_c r_c a_b r_b
        existing rid).2 = []) ∧
    (∀ (tzSet : String → Bool) (cal sum st et : String)
      (tz desc loc : Option String) (meet : Option Bool)
      (att rec : Option (List String)) (vis : Option String)
      (gio gso : Option Bool) (transp su : Option String) (resp : String)
      (r : ToolResult),
      (GoogleCalendar.create_event tzSet cal sum st et tz desc loc meet
        att rec vis gio gso transp su resp).1 = .ok r →
      r.status = "error" →
      (GoogleCalendar.create_event tzSet cal sum st et tz desc loc meet
        att rec vis gio gso transp su resp).2 = []) ∧
    (∀ (tzSet : String → Bool) (cal ev : String)
      (sum desc loc st et tz : Option String)
      (rec : Option (List String)) (vis transp : Option String)
      (gio gso : Option Bool) (su : Option String) (fst fet resp : String),
      (GoogleCalendar.update_event tzSet cal ev sum desc loc st et tz rec
        vis transp gio gso su fst fet resp).1.status = "error" →
      ((GoogleCalendar.update_event tzSet cal ev sum desc loc st et tz rec
        vis transp gio gso su fst fet resp).2 = [] ∨
      (GoogleCalendar.update_event tzSet cal ev sum desc loc st et tz rec
        vis transp gio gso su fst fet resp).2 =
        [GoogleCalendar.CalendarCall.eventsGet cal ev])) := by
  refine ⟨?_, ?_, ?_, ?_, ?_, ?_⟩
  · intro u m h
    rcases trash_message_cases u m with ⟨-, ht⟩ | hs
    · exact ht
    · rw [hs] at h; exact absurd h (by decide)
  · intro u «to» body subject cc bcc tid irt rid h
    rcases send_message_cases u «to» body subject cc bcc tid irt rid with
      ⟨-, ht⟩ | hs
    · exact ht
    · rw [hs] at h; exact absurd h (by decide)
  · intro u «to» body subject cc bcc tid irt rid h
    rcases create_draft_cases u «to» body subject cc bcc tid irt rid with
      ⟨-, ht⟩ | hs
    · exact ht
    · rw [hs] at h; exact absurd h (by decide)
  · intro u d body subject a_t r_t a_c r_c a_b r_b existing rid h
    rcases update_draft_cases u d body subject a_t r_t a_c r_c a_b r_b
      existing rid with ⟨-, ht⟩ | hs
    · exact ht
    · rw [hs] at h; exact absurd h (by decide)
  · intro tzSet cal sum st et tz desc loc meet att rec vis gio gso transp
      su resp r h hr
    rcases create_event_cases tzSet cal sum st et tz desc loc meet att rec
      vis gio gso transp su resp with ⟨r', h', -, t⟩ | ⟨e, h', t⟩ |
      ⟨r', h', hs⟩
    · exact t
    · exact t
    · injection h.symm.trans h' with hrr
      rw [hrr, hs] at hr
      exact absurd hr (by decide)
  · intro tzSet cal ev sum desc loc st et tz rec vis transp gio gso su fst
      fet resp h
    rcases update_event_cases tzSet cal ev sum desc loc st et tz rec vis
      transp gio gso su fst fet resp with t | t | hs
    · exact Or.inl t
    · exact Or.inr t
    · rw [hs] at h; exact absurd h (by decide)

/-- Witness for C2 at concrete inputs: an empty user id in
`trash_message` and an empty calendar id in `update_event`. -/
theorem c2_validation_no_provider_call_witness :
    (Gmail.trash_message "" "m1").2 = [] ∧
    ((GoogleCalendar.update_event (fun _ => false) "" "e9" none none none
        none none none none none none none none none "" "" "r").2 = [] ∨
      (GoogleCalendar.update_event (fun _ => false) "" "e9" none none none
        none none none none none none none none none "" "" "r").2 =
        [GoogleCalendar.CalendarCall.eventsGet "" "e9"]) :=
  ⟨c2_validation_no_provider_call.1 "" "m1" (by decide),
    c2_validation_no_provider_call.2.2.2.2.2 (fun _ => false) "" "e9" none
      none none none none none none none none none none none "" "" "r"
      (by decide)⟩

end McpToolbox

namespace McpToolbox

/-- Witness for C7: a concrete create with an out-of-set timezone and a
concrete update falling back to the stored timezone. -/
theorem c7_timezone_fallback_witness :
    GoogleCalendar.create_event (fun s => s == "UTC") "c2" "Standup"
      "2025-02-01T09:00:00Z" "2025-02-01T09:30:00Z" (some "Bad/Zone")
      none none none none none none none none none none "evt-2" =
      (.ok { status := "success", event := some "evt-2" },
        [GoogleCalendar.CalendarCall.eventsInsert "c2"
          { summary := "Standup", location := none,
            startDateTime := "2025-02-01T09:00:00Z",
            startTimeZone := "UTC",
            endDateTime := "2025-02-01T09:30:00Z", endTimeZone := "UTC",
            visibility := "default", guestsCanInviteOthers := none,
            transparency := "opaque", guestsCanSeeOtherGuests := none,
            conferenceDataVersion := 1 }
          "none"]) :=
  c7_timezone_fallback.1 (fun s => s == "UTC") "c2" "Standup"
    "2025-02-01T09:00:00Z" "2025-02-01T09:30:00Z" (some "Bad/Zone")
    none none none none none none none none none "evt-2"
    (by decide) (by decide) (by decide) (by decide) (by decide) (by decide)

end McpToolbox

namespace McpToolbox

/-- Counterexample for C3: `create_draft` with an invalid `to` entry
and a valid `cc` still creates the draft (status success, a provider
call is issued) and merely reports the entry in
`invalid_emails_in_to`, contrary to the claim that the whole call
returns an error and nothing is created. -/
theorem c3_counterexample :
    (Gmail.create_draft "me" (some "bad") none none (some "good@x.com")
      none none none (some "d1")).1.status = "success" ∧
    (Gmail.create_draft "me" (some "bad") none none (some "good@x.com")
      none none none (some "d1")).1.invalid_emails_in_to = some ["bad"] ∧
    (Gmail.create_draft "me" (some "bad") none none (some "good@x.com")
      none none none (some "d1")).2 ≠ [] ∧
    Gmail.is_valid_email "bad" = false := by
  decide

/-- Claim C3 as amended: in `send_message` the comma-split `to`
entries are individually validated and the first invalid entry fails
the whole call, naming the stripped offending address, with no
provider call; `create_draft` instead drops invalid `to` entries,
reports them in `invalid_emails_in_to` with a warning, and still
creates the draft when another recipient source (here a non-blank
`cc`) remains. -/
theorem c3_invalid_recipient_handling :
    (∀ (u «to» body : String) (subject cc bcc tid irt rid : Option String)
      (e : String),
      pyTruthy (pyStrip u) = true →
      (u = "me" ∨ Gmail.is_valid_email u = true) →
      pyTruthy (pyStrip «to») = true →
      List.find? (fun x => !Gmail.is_valid_email (pyStrip x))
        (pySplitCommaWs (removeBrackets «to»)) = some e →
      Gmail.send_message u «to» body subject cc bcc tid irt rid =
        (errorResult ("Invalid recipient email address: " ++ pyStrip e ++
          "."), [])) ∧
    (∀ (u : String) («to» body subject cc bcc tid irt rid : Option String),
      pyTruthy (pyStrip u) = true →
      (u = "me" ∨ Gmail.is_valid_email u = true) →
      optTruthy «to» = true →
      pyTruthy (pyStrip («to».getD "")) = true →
      optTruthy cc = true →
      pyTruthy (removeBrackets (cc.getD "")) = true →
      (Gmail.create_draft u «to» body subject cc bcc tid irt
        rid).1.status = "success" ∧
      (Gmail.create_draft u «to» body subject cc bcc tid irt
        rid).1.invalid_emails_in_to =
        (if (Gmail.classifyEmails («to».getD "")).2.isEmpty then none
          else some (Gmail.classifyEmails («to».getD "")).2) ∧
      ((Gmail.classifyEmails («to».getD "")).2 ≠ [] →
        (Gmail.create_draft u «to» body subject cc bcc tid irt
          rid).1.warning.isSome = true) ∧
      (∃ p, (Gmail.create_draft u «to» body subject cc bcc tid irt
        rid).2 = [Gmail.GmailCall.draftsCreate u p])) := by
  constructor
  · intro u «to» body subject cc bcc tid irt rid e h1 h2 h3 hf
    have hu := pyTruthy_of_pyStrip h1
    have hto := pyTruthy_of_pyStrip h3
    simp only [Gmail.send_message]
    rw [if_neg (by simp [hu, h1])]
    rw [if_neg (by rcases h2 with rfl | hv
                   · simp
                   · simp [hv])]
    rw [if_neg (by simp [hto, h3])]
    rw [hf]
  · intro u «to» body subject cc bcc tid irt rid h1 h2 hto1 hto2 hcc hccb
    have hu := pyTruthy_of_pyStrip h1
    have hccb2 : optTruthy (some (removeBrackets (cc.getD ""))) = true :=
      hccb
    simp only [Gmail.create_draft]
    rw [if_neg (by simp [hu, h1])]
    rw [if_neg (by rcases h2 with rfl | hv
                   · simp
                   · simp [hv])]
    rw [if_neg (by simp [hto1, hto2, hcc, hccb2])]
    refine ⟨by simp [hto1, hto2], by simp [hto1, hto2], ?_, ⟨_, rfl⟩⟩
    intro hne
    have hne2 : (Gmail.classifyEmails («to».getD "")).2.isEmpty = false := by
      cases hq : (Gmail.classifyEmails («to».getD "")).2 with
      | nil => exact absurd hq hne
      | cons a l => rfl
    simp [hto1, hto2, hne2]

/-- Witness for C3 at a concrete invalid recipient. -/
theorem c3_invalid_recipient_handling_witness :
    Gmail.send_message "me" "nope" "hi" none none none none none none =
      (errorResult ("Invalid recipient email address: " ++ pyStrip "nope" ++
        "."), []) :=
  c3_invalid_recipient_handling.1 "me" "nope" "hi" none none none none none
    none "nope" (by decide) (Or.inl rfl) (by decide) (by decide)

end McpToolbox

namespace McpToolbox

/-- Claim C4: a `send_message` whose `to` entries are all valid and
whose `cc` entries are all invalid succeeds, reports exactly the
stripped invalid cc entries in `invalid_emails_in_cc` together with a
warning, and the MIME message handed to the provider send call carries
no Cc header. -/
theorem c4_send_message_invalid_cc (u «to» body cs : String)
    (subject bcc tid irt rid : Option String)
    (h1 : pyTruthy (pyStrip u) = true)
    (h2 : u = "me" ∨ Gmail.is_valid_email u = true)
    (h3 : pyTruthy (pyStrip «to») = true)
    (hall : ∀ e ∈ pySplitCommaWs (removeBrackets «to»),
      Gmail.is_valid_email (pyStrip e) = true)
    (hcs : pyTruthy cs = true)
    (hbad : ∀ e ∈ pySplitCommaWs (removeBrackets cs),
      Gmail.is_valid_email (pyStrip e) = false) :
    (Gmail.send_message u «to» body subject (some cs) bcc tid irt
      rid).1.status = "success" ∧
    (Gmail.send_message u «to» body subject (some cs) bcc tid irt
      rid).1.invalid_emails_in_cc =
      some ((pySplitCommaWs (removeBrackets cs)).map pyStrip) ∧
    (Gmail.send_message u «to» body subject (some cs) bcc tid irt
      rid).1.warning.isSome = true ∧
    (∃ p, (Gmail.send_message u «to» body subject (some cs) bcc tid irt
      rid).2 = [Gmail.GmailCall.messagesSend u p] ∧ p.raw.Cc = none) := by
  have hu := pyTruthy_of_pyStrip h1
  have hto := pyTruthy_of_pyStrip h3
  have hf : List.find? (fun e => !Gmail.is_valid_email (pyStrip e))
      (pySplitCommaWs (removeBrackets «to»)) = none := by
    rw [List.find?_eq_none]
    intro x hx
    simp [hall x hx]
  have hvcc : (Gmail.classifyEmails cs).1 = [] := by
    simp only [Gmail.classifyEmails]
    exact List.filter_eq_nil_iff.mpr fun e he => by simp [hbad e he]
  have hicc : (Gmail.classifyEmails cs).2 =
      (pySplitCommaWs (removeBrackets cs)).map pyStrip := by
    simp only [Gmail.classifyEmails]
    congr 1
    exact List.filter_eq_self.mpr fun e he => by simp [hbad e he]
  have hne : ((pySplitCommaWs (removeBrackets cs)).map pyStrip).isEmpty =
      false := by
    cases hq : pySplitCommaWs (removeBrackets cs) with
    | nil => exact absurd hq (pySplitCommaWs_ne_nil _)
    | cons a l => rfl
  simp only [Gmail.send_message]
  rw [if_neg (by simp [hu, h1])]
  rw [if_neg (by rcases h2 with rfl | hv
                 · simp
                 · simp [hv])]
  rw [if_neg (by simp [hto, h3])]
  rw [hf]
  have hcst : optTruthy (some cs) = true := hcs
  refine ⟨rfl, ?_, ?_, ⟨_, rfl, ?_⟩⟩
  · simp [hcst, hicc, hne]
  · simp [hcst, hicc, hne]
  · simp [hcst, hvcc]

/-- Witness for C4 at the concrete scenario of the spec. -/
theorem c4_send_message_invalid_cc_witness :
    (Gmail.send_message "me" "a@x.com" "hi" none (some "bad") none none
      none (some "42")).1.status = "success" ∧
    (Gmail.send_message "me" "a@x.com" "hi" none (some "bad") none none
      none (some "42")).1.invalid_emails_in_cc =
      some ((pySplitCommaWs (removeBrackets "bad")).map pyStrip) ∧
    (Gmail.send_message "me" "a@x.com" "hi" none (some "bad") none none
      none (some "42")).1.warning.isSome = true ∧
    (∃ p, (Gmail.send_message "me" "a@x.com" "hi" none (some "bad") none
      none none (some "42")).2 = [Gmail.GmailCall.messagesSend "me" p] ∧
      p.raw.Cc = none) :=
  c4_send_message_invalid_cc "me" "a@x.com" "hi" "bad" none none none none
    (some "42") (by decide) (Or.inl rfl) (by decide) (by decide)
    (by decide) (by decide)

end McpToolbox

namespace McpToolbox

theorem dedup_toFinset_eq (l : List String) :
    l.dedup.toFinset = l.toFinset := by
  ext x
  simp [List.mem_toFinset, List.mem_dedup]

/-- Claim C5: in `update_draft`, (i) omitting `body` keeps the
previously stored body in the rebuilt message; (ii) supplying the same
valid address in both `add_to` and `remove_to` yields a To header
whose address set equals the stored one, and the rebuilt To header
never carries duplicates; (iii) removing an address not present in the
stored header is a no-op on the address set and not an error. -/
theorem c5_update_draft_roundtrip :
    (∀ (u d : String) (subject : Option String)
      (a_t r_t a_c r_c a_b r_b : Option (List String))
      (existing : Gmail.DraftMessagePayload) (rid : String),
      pyTruthy (pyStrip u) = true →
      (u = "me" ∨ Gmail.is_valid_email u = true) →
      pyTruthy (pyStrip d) = true →
      ∃ p, (Gmail.update_draft u d none subject a_t r_t a_c r_c a_b r_b
          existing rid).2 =
        [Gmail.GmailCall.draftsGet u d,
          Gmail.GmailCall.draftsUpdate u d p] ∧
        p.raw.bodyText = Gmail.existingBody existing) ∧
    (∀ (u d a : String) (body subject : Option String)
      (a_c r_c a_b r_b : Option (List String))
      (existing : Gmail.DraftMessagePayload) (rid : String),
      pyTruthy (pyStrip u) = true →
      (u = "me" ∨ Gmail.is_valid_email u = true) →
      pyTruthy (pyStrip d) = true →
      Gmail.is_valid_email a = true →
      ∃ p toL,
        (Gmail.update_draft u d body subject (some [a]) (some [a]) a_c r_c
          a_b r_b existing rid).2 =
          [Gmail.GmailCall.draftsGet u d,
            Gmail.GmailCall.draftsUpdate u d p] ∧
        p.raw.To = some toL ∧
        toL.toFinset =
          ((pySplitCommaWs (Gmail.headerLookup existing.headers "To"
            "")).filter fun x => pyTruthy x).toFinset ∧
        toL.Nodup) ∧
    (∀ (u d a : String) (body subject : Option String)
      (a_c r_c a_b r_b : Option (List String))
      (existing : Gmail.DraftMessagePayload) (rid : String),
      pyTruthy (pyStrip u) = true →
      (u = "me" ∨ Gmail.is_valid_email u = true) →
      pyTruthy (pyStrip d) = true →
      Gmail.is_valid_email a = true →
      a ∉ ((pySplitCommaWs (Gmail.headerLookup existing.headers "To"
        "")).filter fun x => pyTruthy x) →
      (Gmail.update_draft u d body subject none (some [a]) a_c r_c a_b r_b
        existing rid).1.status = "success" ∧
      ∃ p toL,
        (Gmail.update_draft u d body subject none (some [a]) a_c r_c a_b
          r_b existing rid).2 =
          [Gmail.GmailCall.draftsGet u d,
            Gmail.GmailCall.draftsUpdate u d p] ∧
        p.raw.To = some toL ∧
        toL.toFinset =
          ((pySplitCommaWs (Gmail.headerLookup existing.headers "To"
            "")).filter fun x => pyTruthy x).toFinset) := by
  refine ⟨?_, ?_, ?_⟩
  · intro u d subject a_t r_t a_c r_c a_b r_b existing rid h1 h2 h3
    have hu := pyTruthy_of_pyStrip h1
    have hd := pyTruthy_of_pyStrip h3
    simp only [Gmail.update_draft]
    rw [if_neg (by simp [hu, h1])]
    rw [if_neg (by rcases h2 with rfl | hv
                   · simp
                   · simp [hv])]
    rw [if_neg (by simp [hd, h3])]
    exact ⟨_, rfl, rfl⟩
  · intro u d a body subject a_c r_c a_b r_b existing rid h1 h2 h3 hva
    have hu := pyTruthy_of_pyStrip h1
    have hd := pyTruthy_of_pyStrip h3
    simp only [Gmail.update_draft]
    rw [if_neg (by simp [hu, h1])]
    rw [if_neg (by rcases h2 with rfl | hv
                   · simp
                   · simp [hv])]
    rw [if_neg (by simp [hd, h3])]
    refine ⟨_, _, rfl, rfl, ?_, ?_⟩
    · rw [dedup_toFinset_eq]
      simp only [Gmail.applyRecipientOps, hva, List.filter_cons,
        List.filter_nil, if_pos, List.foldl_cons, List.foldl_nil,
        List.append_nil, Option.getD_some, Option.getD_none, decide_True,
        decide_eq_true_eq]
      exact erase_append_singleton_toFinset _ a
    · exact List.nodup_dedup _
  · intro u d a body subject a_c r_c a_b r_b existing rid h1 h2 h3 hva hmem
    have hu := pyTruthy_of_pyStrip h1
    have hd := pyTruthy_of_pyStrip h3
    simp only [Gmail.update_draft]
    rw [if_neg (by simp [hu, h1])]
    rw [if_neg (by rcases h2 with rfl | hv
                   · simp
                   · simp [hv])]
    rw [if_neg (by simp [hd, h3])]
    refine ⟨rfl, _, _, rfl, rfl, ?_⟩
    rw [dedup_toFinset_eq]
    simp only [Gmail.applyRecipientOps, hva, List.filter_cons,
      List.filter_nil, if_pos, List.foldl_cons, List.foldl_nil,
      List.append_nil, Option.getD_some, Option.getD_none, decide_True,
      decide_eq_true_eq]
    rw [List.erase_of_not_mem hmem]

/-- Witness for C5 at a concrete stored draft. -/
theorem c5_update_draft_roundtrip_witness :
    ∃ p, (Gmail.update_draft "me" "d7" none none none none none none none
        none ⟨some "stored body", none, [("To", "x@y.com")]⟩ "d7").2 =
      [Gmail.GmailCall.draftsGet "me" "d7",
        Gmail.GmailCall.draftsUpdate "me" "d7" p] ∧
      p.raw.bodyText = Gmail.existingBody
        ⟨some "stored body", none, [("To", "x@y.com")]⟩ :=
  c5_update_draft_roundtrip.1 "me" "d7" none none none none none none none
    ⟨some "stored body", none, [("To", "x@y.com")]⟩ "d7" (by decide)
    (Or.inl rfl) (by decide)

end McpToolbox
